import Mathlib

/-!
Verification development for the PEARL language-support server
(`src/server/server.js`).  The lexer/preprocessor (`tokenize`, lines
1144-1848) and the scope-stack semantic analyzer (`analyze`, lines
926-2647) are shallowly embedded below; JavaScript mutation is modelled
by explicit state passing, JS `undefined`-dereference exceptions by a
`crashed` flag, and the Node `path`/`fs`/`url` library calls by a pure
filesystem map together with string-level path helpers sufficient for
the absolute paths used here (no `.`/`..` segments).  Folding-range
construction is not carried in the model except for the places where
building a folding range can throw (those set `crashed`); no verified
claim observes folding ranges.  Diagnostic records additionally carry
the `uri` argument that was passed to `addDiagnostic` (the JS object
drops it), so that claims about which file a diagnostic belongs to are
statable.
-/

namespace Pearl

/-- Token kinds (the JS token `type` strings, server.js lines 1007-1018,
    plus `type` for TYPE_KEYWORDS, line 1698). -/
inductive TokType where
  | keyword
  | identifier
  | number
  | str
  | bitstring
  | operator
  | symbol
  | comment
  | inactive
  | error
  | preproc
  | typeKw
  deriving DecidableEq, Repr

/-- `typeDescription` of a symbol (parseTypeDescription, lines 1948-1960;
    createIdentifier, lines 2013-2031).  JS stores `dim: false` from
    createIdentifier and a number from parseTypeDescription; both are
    falsy/numeric and never branched on, modelled as `Nat`. -/
structure TypeDesc where
  dim : Nat
  inv : Bool
  ref : Bool
  typename : String
  global : Bool
  init : Bool
  identAttr : Bool
  deriving DecidableEq, Repr

/-- One entry of the static BUILTIN_PROCS table (lines 654-891). -/
structure BuiltinInfo where
  signature : String
  notes : String
  deriving DecidableEq, Repr

/-- Snapshot of what the hover handler reads through a token's
    `definition` back-reference (`definition.nameToken.offset` and
    `definition.typeDescription`, line 2728).  JS stores an object
    reference into the scope's symbol; the model snapshots the fields
    at annotation time. -/
structure DefRef where
  nameOffset : Nat
  td : TypeDesc
  deriving DecidableEq, Repr

/-- A lexer token (lines 1167-1175) with the optional annotation fields
    the analyzer adds later (`define` line 1676, `definition`/`builtin`
    lines 2079-2100). -/
structure Token where
  type : TokType
  value : String
  uri : String
  line : Nat
  column : Nat
  offset : Nat
  length : Nat
  define : Option String := none
  definition : Option DefRef := none
  builtin : Option BuiltinInfo := none
  deriving DecidableEq, Repr

/-- LSP diagnostic severities used by the server. -/
inductive Severity where
  | error
  | warning
  | hint
  deriving DecidableEq, Repr

/-- A diagnostic (addDiagnostic, lines 935-956).  `diagUri` records the
    uri argument passed to addDiagnostic / the opening token's uri for
    the direct pushes at lines 2627-2639; the JS diagnostic object keeps
    only the range.  `unnecessary` models the [DiagnosticTag.Unnecessary]
    tag. -/
structure Diag where
  severity : Severity
  message : String
  diagUri : String
  line : Nat
  column : Nat
  length : Nat
  unnecessary : Bool := false
  deriving DecidableEq, Repr

/-- A `defines` map entry ({ value, define }, lines 999-1002, 1489). -/
structure DefEntry where
  value : Option String
  defineStmt : Option String
  deriving DecidableEq, Repr

/-- Relevant server settings (defaultSettings, lines 236-240; the
    `macros` map seeded at lines 994-1004 is `preDefines` here). -/
structure Settings where
  workingDirMode : String
  preDefines : List (String × Option String)
  deriving Repr

/-- A block frame ({ keyword, token }, e.g. line 2290). -/
structure Frame where
  keyword : String
  token : Token
  deriving DecidableEq, Repr

/-- A declared symbol as stored in a scope (parseSpcDclTokens result
    entries, line 1998, and createIdentifier, lines 2013-2031).  The JS
    `typeTokens` list is carried nowhere observable by the verified
    claims and is not modelled. -/
structure Identifier where
  nameToken : Token
  typeDescription : TypeDesc
  used : Bool
  deriving DecidableEq, Repr

/-- A scope: JS object used as an insertion-ordered string-keyed map. -/
abbrev Scope := List (String × Identifier)

-- ---------------------------------------------------------------
-- Association-list helpers (JS Map / object property semantics)
-- ---------------------------------------------------------------

/-- JS `map.set(k,v)` / `obj[k] = v`: replace in place, else append. -/
def assocSet {α : Type} (m : List (String × α)) (k : String) (v : α) :
    List (String × α) :=
  if (m.lookup k).isSome then
    m.map (fun p => if p.1 = k then (k, v) else p)
  else
    m ++ [(k, v)]

/-- JS `map.delete(k)`. -/
def assocDel {α : Type} (m : List (String × α)) (k : String) :
    List (String × α) :=
  m.filter (fun p => p.1 ≠ k)

/-- JS `map.has(k)`. -/
def assocHas {α : Type} (m : List (String × α)) (k : String) : Bool :=
  (m.lookup k).isSome

-- ---------------------------------------------------------------
-- Static keyword tables (lines 394-652)
-- ---------------------------------------------------------------

def PEARL_KEYWORDS : List String :=
  ["ACTIVATE", "AFTER", "ALL", "ALPHIC", "ALT", "AT", "BASIC", "BEGIN",
   "BY", "CALL", "CASE", "CLOSE", "CONT", "CONTINUE", "CONTROL",
   "CONVERT", "CREATE", "CREATED", "CYCLIC", "DECLARE", "DCL", "DELETE",
   "DIM", "DIRECT", "DISABLE", "ELSE", "ENABLE", "END", "ENTER",
   "ENTRY", "EVERY", "EXIT", "FIN", "FOR", "FORBACK", "FORMAT",
   "FORWARD", "FREE", "FROM", "GET", "GLOBAL", "GOTO", "HRS",
   "IDENTICAL", "IDENT", "IDF", "IF", "IN", "INDUCE", "INIT", "INITIAL",
   "INLINE", "INOUT", "INTFAC", "INV", "LEAVE", "LENGTH", "MATCH",
   "MAX", "MIN", "MODEND", "MODULE", "NIL", "NOCYCL", "NOMATCH",
   "NOSTREAM", "ON", "ONEOF", "OPEN", "OPERATOR", "OUT", "PRECEDENCE",
   "PRESET", "PREVENT", "PRIORITY", "PRIO", "PROBLEM", "PROCEDURE",
   "PROC", "PUT", "READ", "REENT", "REF", "RELEASE", "REPEAT",
   "REQUEST", "RESERVE", "RESIDENT", "RESUME", "RETURN", "RETURNS",
   "SEC", "SEMASET", "SEND", "SHELLMODULE", "SIGNAL", "SPECIFY", "SPC",
   "STREAM", "STRUCT", "SUSPEND", "SYS", "SYSTEM", "TAKE", "TASK",
   "TERMINATE", "TFU", "THEN", "TO", "TRIGGER", "TRY", "TYPE", "UNTIL",
   "UPON", "USING", "WHEN", "WHILE", "WRITE"]

def TYPE_KEYWORDS : List String :=
  ["BIT", "BOLT", "CHAR", "CHARACTER", "CLOCK", "DATION", "DURATION",
   "FIXED", "FLOAT", "INTERRUPT", "INTRPT", "SEMA"]

/-- Only the entries not commented out in the source. -/
def OPERATOR_KEYWORDS : List String :=
  ["AND", "CAT", "CSHIFT", "ENTIER", "EQ", "EXOR", "EXP", "FIT", "GE",
   "GT", "IS", "ISNT", "LE", "LT", "LWB", "NE", "NOT", "OR", "REM",
   "ROUND", "SIGN", "TOBIT", "TOCHAR", "TOFIXED", "TOFLOAT", "UPB"]

/-- BLOCK_END_MAP (lines 600-610), with the JS `|| 'END'` fallback. -/
def blockEndOf (kw : String) : String :=
  if kw = "MODULE" then "MODEND"
  else if kw = "SHELLMODULE" then "MODEND"
  else if kw = "TASK" then "END"
  else if kw = "PROC" then "END"
  else if kw = "PROCEDURE" then "END"
  else if kw = "REPEAT" then "END"
  else if kw = "BEGIN" then "END"
  else if kw = "IF" then "FIN"
  else if kw = "CASE" then "FIN"
  else "END"

/-- END_KEYWORD_MAP (lines 612-617): permitted opening keywords per
    closing keyword. -/
def endOpenersEND : List String := ["TASK", "PROC", "PROCEDURE", "REPEAT", "BEGIN"]

def endOpenersELSE : List String := ["IF"]

def endOpenersFIN : List String := ["IF", "ELSE", "CASE"]

def endOpenersMODEND : List String := ["MODULE", "SHELLMODULE"]

/-- Task/prio operand modes of TASK_CTRL_KEYWORDS (lines 625-650):
    `true` / `'opt'` / `false` in JS. -/
inductive OpMode where
  | req
  | opt
  | no
  deriving DecidableEq, Repr

/-- TASK_CTRL_KEYWORDS. -/
def taskCtrlOf (kw : String) : Option (OpMode × OpMode) :=
  if kw = "ACTIVATE" then some (.req, .opt)
  else if kw = "PREVENT" then some (.opt, .no)
  else if kw = "TERMINATE" then some (.opt, .no)
  else if kw = "SUSPEND" then some (.opt, .no)
  else if kw = "CONTINUE" then some (.opt, .opt)
  else if kw = "RESUME" then some (.no, .no)
  else none

def SEMA_OP_KEYWORDS : List String := ["REQUEST", "RELEASE"]

def BOLT_OP_KEYWORDS : List String := ["ENTER", "LEAVE", "RESERVE", "FREE"]

/-- BUILTIN_PROCS (lines 654-891).  The JS object literal repeats some
    keys (e.g. ACOS); the later entry wins, modelled by looking the
    reversed list up first-match.  Only presence and the two strings are
    observable (lookupSymbol line 1134, hover line 2736). -/
def BUILTIN_PROCS : List (String × BuiltinInfo) :=
  [("NOW", ⟨"SPC NOW PROC RETURNS ( CLOCK ) GLOBAL ;", "Predefined function; returns current system time as CLOCK."⟩),
   ("DATE", ⟨"SPC DATE PROC RETURNS ( CHAR(10) ) GLOBAL ;", "Predefined function; returns date as \"yyyy-mm-dd\"."⟩),
   ("ASSIGN", ⟨"SPC ASSIGN ENTRY ( d DATION ALPHIC IDENT, new CHAR(24) ) GLOBAL ;", "Change logical assignment of an ALPHIC DATION (RTOS-UH)."⟩),
   ("RANF", ⟨"SPC RANF ENTRY ( state1 FIXED(31) IDENT, state2 FIXED(31) IDENT ) RETURNS ( FLOAT(23) ) GLOBAL ;", "Random float in [0,1); updates generator state in state1/state2."⟩),
   ("DRANF", ⟨"SPC DRANF ENTRY ( state1 FIXED(31) IDENT, state2 FIXED(31) IDENT ) RETURNS ( FLOAT(55) ) GLOBAL ;", "Double-precision variant of RANF."⟩),
   ("TASKST", ⟨"SPC TASKST ENTRY ( name CHAR(24) ) RETURNS ( BIT(32) ) GLOBAL ;", "Returns encoded task status bits for the named task."⟩),
   ("SETPRI", ⟨"SPC SETPRI ENTRY ( newprio FIXED ) RETURNS ( FIXED ) GLOBAL ;", "Set priority of current task; returns old priority."⟩),
   ("GETPRI", ⟨"SPC GETPRI ENTRY ( what FIXED ) RETURNS ( FIXED ) GLOBAL ;", "Return default or current priority depending on parameter value."⟩),
   ("ACOS", ⟨"SPC ACOS PROC ( x FLOAT(23) ) RETURNS ( FLOAT(23) ) GLOBAL ;", "ACOS = each of the standard math builtins"⟩),
   ("ACOS", ⟨"SPC ACOS PROC ( x FLOAT(55) ) RETURNS ( FLOAT(55) ) GLOBAL ;", "ACOS = each of the standard math builtins"⟩),
   ("ASIN", ⟨"SPC ASIN PROC ( x FLOAT(23) ) RETURNS ( FLOAT(23) ) GLOBAL ;", "ASIN = each of the standard math builtins"⟩),
   ("ASIN", ⟨"SPC ASIN PROC ( x FLOAT(55) ) RETURNS ( FLOAT(55) ) GLOBAL ;", "ASIN = each of the standard math builtins"⟩),
   ("ATAN", ⟨"SPC ATAN PROC ( x FLOAT(23) ) RETURNS ( FLOAT(23) ) GLOBAL ;", "ATAN = each of the standard math builtins"⟩),
   ("ATAN", ⟨"SPC ATAN PROC ( x FLOAT(55) ) RETURNS ( FLOAT(55) ) GLOBAL ;", "ATAN = each of the standard math builtins"⟩),
   ("COS", ⟨"SPC COS PROC ( x FLOAT(23) ) RETURNS ( FLOAT(23) ) GLOBAL ;", "COS = each of the standard math builtins"⟩),
   ("COS", ⟨"SPC COS PROC ( x FLOAT(55) ) RETURNS ( FLOAT(55) ) GLOBAL ;", "COS = each of the standard math builtins"⟩),
   ("EXP", ⟨"SPC EXP PROC ( x FLOAT(23) ) RETURNS ( FLOAT(23) ) GLOBAL ;", "EXP = each of the standard math builtins"⟩),
   ("EXP", ⟨"SPC EXP PROC ( x FLOAT(55) ) RETURNS ( FLOAT(55) ) GLOBAL ;", "EXP = each of the standard math builtins"⟩),
   ("LD", ⟨"SPC LD PROC ( x FLOAT(23) ) RETURNS ( FLOAT(23) ) GLOBAL ;", "LD = each of the standard math builtins"⟩),
   ("LD", ⟨"SPC LD PROC ( x FLOAT(55) ) RETURNS ( FLOAT(55) ) GLOBAL ;", "LD = each of the standard math builtins"⟩),
   ("LG", ⟨"SPC LG PROC ( x FLOAT(23) ) RETURNS ( FLOAT(23) ) GLOBAL ;", "LG = each of the standard math builtins"⟩),
   ("LG", ⟨"SPC LG PROC ( x FLOAT(55) ) RETURNS ( FLOAT(55) ) GLOBAL ;", "LG = each of the standard math builtins"⟩),
   ("LN", ⟨"SPC LN PROC ( x FLOAT(23) ) RETURNS ( FLOAT(23) ) GLOBAL ;", "LN = each of the standard math builtins"⟩),
   ("LN", ⟨"SPC LN PROC ( x FLOAT(55) ) RETURNS ( FLOAT(55) ) GLOBAL ;", "LN = each of the standard math builtins"⟩),
   ("PI", ⟨"SPC PI PROC ( x FLOAT(23) ) RETURNS ( FLOAT(23) ) GLOBAL ;", "NPIAME = each of the standard math builtins"⟩),
   ("PI", ⟨"SPC PI PROC ( x FLOAT(55) ) RETURNS ( FLOAT(55) ) GLOBAL ;", "PI = each of the standard math builtins"⟩),
   ("SIN", ⟨"SPC SIN PROC ( x FLOAT(23) ) RETURNS ( FLOAT(23) ) GLOBAL ;", "SIN = each of the standard math builtins"⟩),
   ("SIN", ⟨"SPC SIN PROC ( x FLOAT(55) ) RETURNS ( FLOAT(55) ) GLOBAL ;", "SIN = each of the standard math builtins"⟩),
   ("SQRT", ⟨"SPC SQRT PROC ( x FLOAT(23) ) RETURNS ( FLOAT(23) ) GLOBAL ;", "SQRT = each of the standard math builtins"⟩),
   ("SQRT", ⟨"SPC SQRT PROC ( x FLOAT(55) ) RETURNS ( FLOAT(55) ) GLOBAL ;", "SQRT = each of the standard math builtins"⟩),
   ("TAN", ⟨"SPC TAN PROC ( x FLOAT(55) ) RETURNS ( FLOAT(55) ) GLOBAL ;", "TAN = each of the standard math builtins"⟩),
   ("ATANH", ⟨"SPC ATANH PROC ( x FLOAT ) RETURNS ( FLOAT ) GLOBAL ;", "FPU-specific builtin functions; only present if compiled with FPU support."⟩),
   ("COSH", ⟨"SPC COSH PROC ( x FLOAT ) RETURNS ( FLOAT ) GLOBAL ;", "FPU-specific builtin functions; only present if compiled with FPU support."⟩),
   ("EXPM1", ⟨"SPC EXPM1 PROC ( x FLOAT ) RETURNS ( FLOAT ) GLOBAL ;", "FPU-specific builtin functions; only present if compiled with FPU support."⟩),
   ("INT", ⟨"SPC INT PROC ( x FLOAT ) RETURNS ( FLOAT ) GLOBAL ;", "FPU-specific builtin functions; only present if compiled with FPU support."⟩),
   ("INTRZ", ⟨"SPC INTRZ PROC ( x FLOAT ) RETURNS ( FLOAT ) GLOBAL ;", "FPU-specific builtin functions; only present if compiled with FPU support."⟩),
   ("LNP1", ⟨"SPC LNP1 PROC ( x FLOAT ) RETURNS ( FLOAT ) GLOBAL ;", "FPU-specific builtin functions; only present if compiled with FPU support."⟩),
   ("NEG", ⟨"SPC NEG PROC ( x FLOAT ) RETURNS ( FLOAT ) GLOBAL ;", "FPU-specific builtin functions; only present if compiled with FPU support."⟩),
   ("SINH", ⟨"SPC SINH PROC ( x FLOAT ) RETURNS ( FLOAT ) GLOBAL ;", "FPU-specific builtin functions; only present if compiled with FPU support."⟩),
   ("TANH", ⟨"SPC TANH PROC ( x FLOAT ) RETURNS ( FLOAT ) GLOBAL ;", "FPU-specific builtin functions; only present if compiled with FPU support."⟩),
   ("TENTOX", ⟨"SPC TENTOX PROC ( x FLOAT ) RETURNS ( FLOAT ) GLOBAL ;", "FPU-specific builtin functions; only present if compiled with FPU support."⟩),
   ("TWOTOX", ⟨"SPC TWOTOX PROC ( x FLOAT ) RETURNS ( FLOAT ) GLOBAL ;", "FPU-specific builtin functions; only present if compiled with FPU support."⟩),
   ("ST", ⟨"SPC ST PROC ( d DATION IDENT ) RETURNS ( FIXED(15) ) GLOBAL ;", "Status of last I/O for given DATION."⟩),
   ("REWIND", ⟨"SPC REWIND ENTRY ( d DATION IDENT ) GLOBAL ;", "Rewind DATION"⟩),
   ("SYNC", ⟨"SPC SYNC   ENTRY ( d DATION IDENT ) GLOBAL ;", "Sync DATION and device"⟩),
   ("SEEK", ⟨"SPC SEEK   ENTRY ( d DATION IDENT, pos FIXED(31) ) GLOBAL ;", "Seek position of DATION."⟩),
   ("SAVEP", ⟨"SPC SAVEP  ENTRY ( d DATION IDENT, pos FIXED(31) IDENT ) GLOBAL ;", "Get position of DATION."⟩),
   ("APPEND", ⟨"SPC APPEND ENTRY ( d DATION IDENT ) GLOBAL ;", "Open DATION for appending data."⟩),
   ("SETPIX", ⟨"SPC SETPIX ENTRY ( xpos FIXED(15), ypos FIXED(15), colour FIXED(15) ) GLOBAL ;", "Set pixel in bitmapped graphics."⟩),
   ("GETPIX", ⟨"SPC GETPIX ENTRY ( xpos FIXED(15), ypos FIXED(15), colour FIXED(15) IDENT ) GLOBAL ;", "Get pixel in bitmapped graphics."⟩),
   ("LINE", ⟨"SPC LINE   ENTRY ( x1pos FIXED(15), y1pos FIXED(15), x2pos FIXED(15), y2pos FIXED(15), colour FIXED(15) ) GLOBAL ;", "Draw line in bitmapped graphics."⟩),
   ("REFADD", ⟨"SPC REFADD ENTRY ( p REF, shift FIXED(31) ) GLOBAL ;", "Pointer arithmetic on REF"⟩),
   ("BEG", ⟨"SPC BEG ENTRY ( s CHAR(255) IDENT ) RETURNS ( FIXED(15) ) GLOBAL ;", "BEG: erste nicht-Blank-Position, LEN."⟩),
   ("LEN", ⟨"SPC LEN ENTRY ( s CHAR(255) IDENT ) RETURNS ( FIXED(15) ) GLOBAL ;", "letzte nicht-Blank-Position."⟩),
   ("INSTR", ⟨"SPC INSTR ENTRY ( s1 CHAR(255) IDENT, anf1 FIXED(15) IDENT, end1 FIXED(15) IDENT, s2 CHAR(255) IDENT, anf2 FIXED(15) IDENT, end2 FIXED(15) IDENT ) RETURNS ( FIXED(15) ) GLOBAL ;", "Teilstring-Suche."⟩),
   ("CMPW", ⟨"SPC CMPW ENTRY ( s1 CHAR(255) IDENT, anf1 FIXED(15) IDENT, end1 FIXED(15) IDENT, s2 CHAR(255) IDENT, anf2 FIXED(15) IDENT, end2 FIXED(15) IDENT ) RETURNS ( FIXED(15) ) GLOBAL ;", "Vergleich mit Wildcards (*, ?)."⟩),
   ("MID", ⟨"SPC MID ENTRY ( s CHAR(255) IDENT, anf1 FIXED(15) IDENT, end1 FIXED(15) IDENT ) RETURNS ( CHAR(255) ) GLOBAL ;", "Teilstring kopieren: string2 = MID(string1, anf1, end1)."⟩),
   ("KON", ⟨"", "zwei Teilstrings konkateniert: string3"⟩),
   ("INSER", ⟨"SPC INSER ENTRY ( s1 CHAR(255) IDENT, anf1 FIXED(15) IDENT, end1 FIXED(15) IDENT, s2 CHAR(255) IDENT, anf2 FIXED(15) IDENT, end2 FIXED(15) IDENT ) RETURNS ( CHAR(255) ) GLOBAL ;", "Teilstring aus s2 in s1 einfügen: string3."⟩)]

/-- `BUILTIN_PROCS[name]` with JS duplicate-key last-wins semantics.
    (The KON source entry misspells `signature` as `signatures`, so its
    `signature` property is undefined; modelled as the empty string.) -/
def builtinLookup (name : String) : Option BuiltinInfo :=
  BUILTIN_PROCS.reverse.lookup name

-- ---------------------------------------------------------------
-- Paths, uris, filesystem (Node library calls, modelled)
-- ---------------------------------------------------------------

/-- Character-list prefix test and drop (String.startsWith/String.drop
    are byte-position loops that the kernel cannot evaluate). -/
def strStartsWith (s p : String) : Bool :=
  p.data.isPrefixOf s.data

def strDrop (s : String) (n : Nat) : String :=
  String.mk (s.data.drop n)

/-- filePathFromUri (lines 344-353): fileURLToPath modelled as stripping
    the scheme for the plain absolute file uris used here. -/
def filePathFromUri (uri : String) : String :=
  if strStartsWith uri "file://" then strDrop uri 7 else uri

/-- uriFromFilePath (lines 355-357): pathToFileURL for absolute paths. -/
def uriFromFilePath (p : String) : String :=
  "file://" ++ p

/-- `path.dirname` for the forward-slash paths used here. -/
def dirname (p : String) : String :=
  let cs := p.toList
  match (cs.reverse).findIdx? (fun c => c = '/') with
  | none => "."
  | some k =>
      let idx := cs.length - 1 - k
      if idx = 0 then "/" else String.mk (cs.take idx)

/-- `path.resolve(parent, rel)` for paths without `.`/`..` segments. -/
def resolvePath (parent rel : String) : String :=
  if strStartsWith rel "/" then rel else parent ++ "/" ++ rel

/-- getWorkingDirectoryForDocument (lines 125-151) in the
    `workingDirMode === 'file'` configuration used by the runs below
    (workspace-folder resolution is protocol wiring, out of the core). -/
def getWorkingDirectoryForDocument (docUri : String) (_settings : Settings) :
    String :=
  dirname (filePathFromUri docUri)

/-- The filesystem visible to `#include`: absolute path to file text.
    loadFileTextCached's mtime cache (lines 359-388) only avoids
    re-reads of identical content within the immutable map, so it is
    dropped. -/
abbrev FileSys := List (String × String)

-- ---------------------------------------------------------------
-- Lexer/preprocessor (tokenize, lines 1144-1848)
-- ---------------------------------------------------------------

/-- The `\s`-class characters reachable in a line buffer (no newlines;
    ASCII inputs assumed). -/
def wsChar (c : Char) : Bool :=
  c = ' ' ∨ c = '\t' ∨ c = '\x0b' ∨ c = '\x0c'

def nlChar (c : Char) : Bool :=
  c = '\n' ∨ c = '\r'

def digitChar (c : Char) : Bool :=
  '0' ≤ c ∧ c ≤ '9'

def alphaChar (c : Char) : Bool :=
  ('A' ≤ c ∧ c ≤ 'Z') ∨ ('a' ≤ c ∧ c ≤ 'z')

/-- `[A-Za-z_]` (directive-pattern identifier start). -/
def identStartChar (c : Char) : Bool :=
  alphaChar c ∨ c = '_'

/-- `[A-Za-z0-9_]`. -/
def identChar (c : Char) : Bool :=
  alphaChar c ∨ digitChar c ∨ c = '_'

def wsCount (l : List Char) : Nat :=
  (l.takeWhile wsChar).length

/-- Mutable state of the enclosing `analyze` closure that all nested
    `tokenize` invocations share: `defines`, `defineStack`,
    `includeStack`, `section`, the collected diagnostics, and the
    length of the folding companion stack `preprocStack` (its contents
    feed only folding ranges, which are elided; the length decides
    whether the folding code runs and hence whether its
    `lineOffsets[line-1]` access can throw).  `crashed` models a thrown
    JS exception. -/
structure LexSh where
  defines : List (String × DefEntry)
  defineStack : List Bool
  includeStack : List String
  preprocCount : Nat
  sect : String
  diags : List Diag
  crashed : Bool
  deriving Repr

/-- Per-`tokenize`-call local state: character cursor, position
    bookkeeping, the produced token array, and the end-of-line records
    (`lineOffsets[l].endOfLineOffset` and `endOfLineColumn`); entry `l`
    exists once line `l` has been terminated by a newline. -/
structure LexLoc where
  offset : Nat
  line : Nat
  column : Nat
  lineStart : Bool
  tokens : List Token
  lineEnds : List (Nat × Nat)
  deriving Repr

def lexInit : LexLoc :=
  { offset := 0, line := 0, column := 0, lineStart := true,
    tokens := [], lineEnds := [] }

/-- addDiagnostic (lines 935-956): diagnostics for other files than the
    analyzed document are dropped; the JS integer validation cannot fail
    for `Nat` positions. -/
def addDiagSh (docUri : String) (sh : LexSh) (sev : Severity)
    (msg dUri : String) (line col len : Nat) (unnec : Bool) : LexSh :=
  if dUri = docUri then
    { sh with diags := sh.diags ++ [⟨sev, msg, dUri, line, col, len, unnec⟩] }
  else sh

/-- advanceChar (lines 1183-1224). -/
def advanceChar (chars : List Char) (loc : LexLoc) : LexLoc :=
  match chars[loc.offset]? with
  | none => { loc with offset := loc.offset + 1 }
  | some c =>
    if c = '\n' then
      { loc with offset := loc.offset + 1,
                 lineEnds := loc.lineEnds ++ [(loc.offset, loc.column)],
                 line := loc.line + 1, column := 0, lineStart := true }
    else if c = '\r' then
      let o1 := loc.offset + 1
      let o2 := if chars[o1]? = some '\n' then o1 + 1 else o1
      { loc with offset := o2,
                 lineEnds := loc.lineEnds ++ [(loc.offset, loc.column)],
                 line := loc.line + 1, column := 0, lineStart := true }
    else { loc with offset := loc.offset + 1, column := loc.column + 1 }

/-- skipRestOfLine (lines 1226-1240): returns the line-end offset and
    column, with the newline (if any) consumed. -/
def skipRestOfLine (chars : List Char) (loc : LexLoc) : Nat × Nat × LexLoc :=
  let n := ((chars.drop loc.offset).takeWhile (fun c => ¬ nlChar c)).length
  let endOff := loc.offset + n
  let endCol := loc.column + n
  let loc1 := { loc with offset := endOff, column := endCol }
  let loc2 := if endOff < chars.length then advanceChar chars loc1 else loc1
  (endOff, endCol, loc2)

/-- addToken (lines 1157-1178); the integer validation reduces to
    `endOffset < startOffset` over `Nat`. -/
def pushToken (uri : String) (chars : List Char) (loc : LexLoc)
    (ty : TokType) (s0 l0 c0 e0 : Nat) : LexLoc :=
  if e0 < s0 then loc
  else
    { loc with tokens := loc.tokens ++
        [{ type := ty, value := String.mk ((chars.drop s0).take (e0 - s0)),
           uri := uri, line := l0, column := c0, offset := s0,
           length := e0 - s0 }] }

/-- `tokens[tokens.length - 1].define = defineValue` (line 1676). -/
def setLastDefine (ts : List Token) (dv : String) : List Token :=
  match ts.getLast? with
  | none => ts
  | some t => ts.dropLast ++ [{ t with define := some dv }]

/-- `([A-Za-z_][A-Za-z0-9_]*)` as used in the directive patterns. -/
def matchIdent : List Char → Option (String × Nat)
  | [] => none
  | c :: t =>
    if identStartChar c then
      let rest := t.takeWhile identChar
      some (String.mk (c :: rest), 1 + rest.length)
    else none

/-- `/^(\s*)((#ifn?def)\s+([A-Za-z_][A-Za-z0-9_]*))/` (line 1321):
    returns (leading-ws length, cmd = #ifdef?, name, statement length). -/
def matchIfdef (l : List Char) : Option (Nat × Bool × String × Nat) :=
  let w := wsCount l
  let r := l.drop w
  let tryCmd : String → Bool → Option (Nat × Bool × String × Nat) :=
    fun cmd isifdef =>
      if cmd.data.isPrefixOf r then
        let after := r.drop cmd.length
        let sw := wsCount after
        if sw = 0 then none
        else
          match matchIdent (after.drop sw) with
          | some (nm, nl) => some (w, isifdef, nm, cmd.length + sw + nl)
          | none => none
      else none
  match tryCmd "#ifdef" true with
  | some res => some res
  | none => tryCmd "#ifndef" false

/-- `/^(\s*)(#else)/` and `/^(\s*)(#endif)/`-style prefix literals. -/
def matchLit (pat : String) (l : List Char) : Option Nat :=
  let w := wsCount l
  if pat.data.isPrefixOf (l.drop w) then some w else none

/-- The two `#include` patterns (lines 1429-1432): quoted form first,
    then the bare `[^\s]+` form; returns (ws, path, statement length). -/
def matchInclude (l : List Char) : Option (Nat × String × Nat) :=
  let w := wsCount l
  let r := l.drop w
  if "#include".data.isPrefixOf r then
    let after := r.drop 8
    let sw := wsCount after
    if sw = 0 then none
    else
      let body := after.drop sw
      let quoted : Option (Nat × String × Nat) :=
        match body with
        | '"' :: t =>
          let p := t.takeWhile (fun c => ¬ (wsChar c ∨ c = '"'))
          if 1 ≤ p.length ∧ (t.drop p.length).head? = some '"' then
            some (w, String.mk p, 8 + sw + 1 + p.length + 1)
          else none
        | _ => none
      match quoted with
      | some res => some res
      | none =>
        let p := body.takeWhile (fun c => ¬ wsChar c)
        if 1 ≤ p.length then some (w, String.mk p, 8 + sw + p.length)
        else none
  else none

/-- `/^(\s*)(#define\s+([A-Za-z_][A-Za-z0-9_]*)(?:\s+"([^"]+)")?)/`
    (line 1477): returns (ws, name, value or "", statement length). -/
def matchDefine (l : List Char) : Option (Nat × String × String × Nat) :=
  let w := wsCount l
  let r := l.drop w
  if "#define".data.isPrefixOf r then
    let after := r.drop 7
    let sw := wsCount after
    if sw = 0 then none
    else
      match matchIdent (after.drop sw) with
      | none => none
      | some (nm, nl) =>
        let rest := (after.drop sw).drop nl
        let sw2 := wsCount rest
        let valPart : Option (String × Nat) :=
          if 1 ≤ sw2 then
            match rest.drop sw2 with
            | '"' :: t =>
              let inner := t.takeWhile (fun c => c ≠ '"')
              if 1 ≤ inner.length ∧ (t.drop inner.length).head? = some '"' then
                some (String.mk inner, sw2 + 1 + inner.length + 1)
              else none
            | _ => none
          else none
        match valPart with
        | some (v, extra) => some (w, nm, v, 7 + sw + nl + extra)
        | none => some (w, nm, "", 7 + sw + nl)
  else none

/-- `/^(\s*)(#undef\s+([A-Za-z_][A-Za-z0-9_]*))/` (line 1499). -/
def matchUndef (l : List Char) : Option (Nat × String × Nat) :=
  let w := wsCount l
  let r := l.drop w
  if "#undef".data.isPrefixOf r then
    let after := r.drop 6
    let sw := wsCount after
    if sw = 0 then none
    else
      match matchIdent (after.drop sw) with
      | some (nm, nl) => some (w, nm, 6 + sw + nl)
      | none => none
  else none

/-- `/^(\s*)(#[A-Za-z][A-Za-z0-9_]*)/` (line 1518): (ws, matched text). -/
def matchUnknown (l : List Char) : Option (Nat × String) :=
  let w := wsCount l
  match l.drop w with
  | '#' :: c :: t =>
    if alphaChar c then some (w, String.mk ('#' :: c :: t.takeWhile identChar))
    else none
  | _ => none

/-- Macro substitution inside an `#include` path (lines 1445-1452):
    every maximal `[A-Za-z_][A-Za-z0-9_]*` run that names a define is
    replaced by its value, with a surrounding `'...'` pair stripped.
    Structural fuel (each step consumes at least one character, so
    `l.length + 1` suffices, supplied by `replaceIdents`). -/
def replaceIdentsGo (defines : List (String × DefEntry)) :
    Nat → List Char → List Char
  | 0, _ => []
  | _, [] => []
  | f + 1, c :: t =>
    if identStartChar c then
      let run := t.takeWhile identChar
      let nm := String.mk (c :: run)
      let rest := t.drop run.length
      let rep :=
        match defines.lookup nm with
        | some e =>
          let vc := (e.value.getD "").data
          match vc with
          | '\'' :: tv =>
            if tv ≠ [] ∧ tv.getLast? = some '\'' then tv.dropLast else vc
          | _ => vc
        | none => c :: run
      rep ++ replaceIdentsGo defines f rest
    else c :: replaceIdentsGo defines f t

def replaceIdents (defines : List (String × DefEntry)) (l : List Char) :
    List Char :=
  replaceIdentsGo defines (l.length + 1) l

/-- The position rewrite applied to the tokens obtained by re-lexing a
    macro replacement (lines 1680-1685): every replacement token gets
    the invoking reference token's line, column, offset and full
    length. -/
def expandDefine (ln col off len : Nat) (ts : List Token) : List Token :=
  ts.map fun tk =>
    { tk with line := ln, column := col, offset := off, length := len }

/-- Scan of the end of a `/* ... */` comment (lines 1275-1282); the
    cursor starts after the opening delimiter. -/
def blockCommentEnd (chars : List Char) : Nat → LexLoc → LexLoc
  | 0, loc => loc
  | fuel + 1, loc =>
    match chars[loc.offset]? with
    | none => loc
    | some c =>
      if c = '*' ∧ chars[loc.offset + 1]? = some '/' then
        { loc with offset := loc.offset + 2, column := loc.column + 2 }
      else blockCommentEnd chars fuel (advanceChar chars loc)

/-- `/[0-9]/` scan of a numeric literal body (lines 1601-1652):
    integer/fraction, optional exponent, optional `(len)` suffix. -/
def digitRunLen (chars : List Char) (o : Nat) : Nat :=
  ((chars.drop o).takeWhile digitChar).length

def numEnd (chars : List Char) (s0 : Nat) : Nat :=
  let o1 := if chars[s0]? = some '.' then s0 + 1 else s0
  let o2 := o1 + digitRunLen chars o1
  let o3 :=
    if chars[o2]? = some '.' then (o2 + 1) + digitRunLen chars (o2 + 1)
    else o2
  let o4 :=
    if chars[o3]? = some 'E' ∨ chars[o3]? = some 'e' then
      let ob := o3 + 1
      let oc := if chars[ob]? = some '+' ∨ chars[ob]? = some '-' then ob + 1 else ob
      oc + digitRunLen chars oc
    else o3
  if chars[o4]? = some '(' then
    let oe := (o4 + 1) + digitRunLen chars (o4 + 1)
    if chars[oe]? = some ')' then oe + 1 else oe
  else o4

/-- `'...'` string / bit literal scan (lines 1564-1597): unterminated
    literals close at end of line; optional `B`/`B1`..`B4` suffix. -/
def strEnd (chars : List Char) (s0 : Nat) : Nat × TokType :=
  let inner :=
    ((chars.drop (s0 + 1)).takeWhile (fun c => c ≠ '\'' ∧ ¬ nlChar c)).length
  let o1 := s0 + 1 + inner
  let o2 := if chars[o1]? = some '\'' then o1 + 1 else o1
  if chars[o2]? = some 'B' then
    let o4 :=
      if (chars[o2 + 1]?).elim false (fun c => '1' ≤ c ∧ c ≤ '4') then o2 + 2
      else o2 + 1
    (o4, .bitstring)
  else (o2, .str)

/-- Multi-character operator/symbol classification (lines 1713-1839),
    including the section-sensitive DATION arrows; returns kind and
    character count, `error` for an illegal character. -/
def symClass (sect : String) (ch : Char) (c1 c2 : Option Char) :
    TokType × Nat :=
  if sect = "system" ∧ ch = '<' ∧ c1 = some '-' ∧ c2 = some '>' then (.operator, 3)
  else if sect = "system" ∧ ch = '<' ∧ c1 = some '-' then (.operator, 2)
  else if sect = "system" ∧ ch = '-' ∧ c1 = some '>' then (.operator, 2)
  else if ch = ':' then (.symbol, if c1 = some '=' then 2 else 1)
  else if ch = '=' then (.operator, if c1 = some '=' then 2 else 1)
  else if ch = '<' then (.operator, if c1 = some '=' ∨ c1 = some '>' then 2 else 1)
  else if ch = '>' then (.operator, if c1 = some '=' ∨ c1 = some '<' then 2 else 1)
  else if ch = '/' then (.operator, if c1 = some '/' ∨ c1 = some '=' then 2 else 1)
  else if ch = '*' then (.operator, if c1 = some '*' then 2 else 1)
  else if ch = '+' ∨ ch = '-' then (.operator, 1)
  else if ch = '(' ∨ ch = ')' ∨ ch = '[' ∨ ch = ']' ∨ ch = ';' ∨ ch = ',' ∨ ch = '.'
    then (.symbol, 1)
  else (.error, 1)

/-- Disposition of a `#` line (lines 1305-1546), computed without the
    recursive re-lex an `#include` needs: `handled` consumed the line,
    `inc` additionally requests lexing of the included file's text,
    `pass` means no pattern matched in active state and scanning falls
    through to the ordinary rules. -/
inductive DirAction where
  | handled (loc : LexLoc) (sh : LexSh)
  | inc (loc : LexLoc) (sh : LexSh) (absPath txt : String)
  | pass
  deriving Repr

def dirDispatch (fs : FileSys) (settings : Settings) (docUri uri : String)
    (chars : List Char) (loc : LexLoc) (sh : LexSh) : DirAction :=
  let lsOff := loc.offset
  let lsLine := loc.line
  let lsCol := loc.column
  let lineBuf := (chars.drop lsOff).takeWhile (fun c => ¬ nlChar c)
  match matchIfdef lineBuf with
  | some (w, isifdef, nm, stmtLen) =>
    let loc1 := pushToken uri chars loc .preproc (lsOff + w) lsLine (lsCol + w)
      (lsOff + w + stmtLen)
    let sh1 :=
      if sh.defineStack.getLast? = some false then
        addDiagSh docUri sh .hint "inaktiv" uri lsLine (lsCol + w) stmtLen true
      else sh
    let v := assocHas sh1.defines nm
    let pr := if isifdef then v else !v
    let sp := sh1.defineStack.foldl (fun a b => a && b) pr
    let sh2 := { sh1 with defineStack := sh1.defineStack ++ [sp],
                          preprocCount := sh1.preprocCount + 1 }
    let (endOff, _, loc2) := skipRestOfLine chars loc1
    let loc3 := pushToken uri chars loc2 .inactive (lsOff + stmtLen) lsLine
      (lsCol + stmtLen) endOff
    .handled loc3 sh2
  | none =>
  match matchLit "#else" lineBuf with
  | some w =>
    let loc1 := pushToken uri chars loc .preproc (lsOff + w) lsLine (lsCol + w)
      (lsOff + w + 5)
    let elseValue :=
      match sh.defineStack.getLast? with
      | some b => !b
      | none => true
    let rest := sh.defineStack.dropLast
    let sp := rest.foldl (fun a b => a && b) elseValue
    let stack1 := rest ++ [sp]
    let sh1 := { sh with defineStack := stack1 }
    let sh2 :=
      if stack1.getLast? = some false then
        addDiagSh docUri sh1 .hint "inaktiv" uri lsLine (lsCol + w) 5 true
      else sh1
    -- folding range for the closed region reads lineOffsets[line-1]
    -- (line 1373): on line 0 that entry is undefined and the access throws
    if 0 < sh2.preprocCount ∧ lsLine = 0 then
      .handled loc1 { sh2 with crashed := true }
    else
      let popped := if 0 < sh2.preprocCount then sh2.preprocCount - 1 else sh2.preprocCount
      let sh3 := { sh2 with preprocCount := popped + 1 }
      let (endOff, _, loc2) := skipRestOfLine chars loc1
      let loc3 := pushToken uri chars loc2 .inactive (lsOff + 5) lsLine (lsCol + 5) endOff
      .handled loc3 sh3
  | none =>
  match matchLit "#endif" lineBuf with
  | some w =>
    let loc1 := pushToken uri chars loc .preproc (lsOff + w) lsLine (lsCol + w)
      (lsOff + w + 6)
    let sh1 :=
      if 1 < sh.defineStack.length then
        { sh with defineStack := sh.defineStack.dropLast }
      else sh
    -- folding (line 1409): same undefined access on line 0
    if 0 < sh1.preprocCount ∧ lsLine = 0 then
      .handled loc1 { sh1 with crashed := true }
    else
      let sh2 :=
        if 0 < sh1.preprocCount then { sh1 with preprocCount := sh1.preprocCount - 1 }
        else sh1
      let sh3 :=
        if sh2.defineStack.getLast? = some false then
          addDiagSh docUri sh2 .hint "inaktiv" uri lsLine (lsCol + w) 6 true
        else sh2
      let (endOff, _, loc2) := skipRestOfLine chars loc1
      let loc3 := pushToken uri chars loc2 .inactive (lsOff + 6) lsLine (lsCol + 6) endOff
      .handled loc3 sh3
  | none =>
  if sh.defineStack = [] ∨ sh.defineStack.getLast? = some true then
    match matchInclude lineBuf with
    | some (w, incPath, stmtLen) =>
      let loc1 := pushToken uri chars loc .preproc (lsOff + w) lsLine (lsCol + w)
        (lsOff + w + stmtLen)
      let (endOff, _, loc2) := skipRestOfLine chars loc1
      let loc3 := pushToken uri chars loc2 .inactive (lsOff + stmtLen) lsLine
        (lsCol + stmtLen) endOff
      let finalPath := String.mk (replaceIdents sh.defines incPath.data)
      let parent := getWorkingDirectoryForDocument uri settings
      let absPath := resolvePath parent finalPath
      if sh.includeStack.length < 100 then
        match fs.lookup absPath with
        | none =>
          .handled loc3 (addDiagSh docUri sh .error
            ("#include: ENOENT: no such file or directory, stat '" ++ absPath ++ "'")
            uri lsLine (lsCol + w) stmtLen false)
        | some txt => .inc loc3 sh absPath txt
      else
        .handled loc3 sh
    | none =>
    match matchDefine lineBuf with
    | some (w, nm, v, stmtLen) =>
      let stmtText := String.mk ((lineBuf.drop w).take stmtLen)
      let loc1 := pushToken uri chars loc .preproc (lsOff + w) lsLine (lsCol + w)
        (lsOff + w + stmtLen)
      let sh1 :=
        if assocHas sh.defines nm then
          addDiagSh docUri sh .error ("Makro " ++ nm ++ " bereits definiert.")
            uri lsLine (lsCol + w) stmtLen false
        else { sh with defines := assocSet sh.defines nm ⟨some v, some stmtText⟩ }
      let (endOff, _, loc2) := skipRestOfLine chars loc1
      let loc3 := pushToken uri chars loc2 .inactive (lsOff + stmtLen) lsLine
        (lsCol + stmtLen) endOff
      .handled loc3 sh1
    | none =>
    match matchUndef lineBuf with
    | some (w, nm, stmtLen) =>
      let loc1 := pushToken uri chars loc .preproc (lsOff + w) lsLine (lsCol + w)
        (lsOff + w + stmtLen)
      let sh1 :=
        if ¬ assocHas sh.defines nm then
          addDiagSh docUri sh .warning ("Makro " ++ nm ++ " nicht definiert.")
            uri lsLine (lsCol + w) stmtLen false
        else sh
      let sh2 := { sh1 with defines := assocDel sh1.defines nm }
      let (endOff, _, loc2) := skipRestOfLine chars loc1
      let loc3 := pushToken uri chars loc2 .inactive (lsOff + stmtLen) lsLine
        (lsCol + stmtLen) endOff
      .handled loc3 sh2
    | none =>
    match matchUnknown lineBuf with
    | some (w, stmtText) =>
      let stmtLen := stmtText.length
      let loc1 := pushToken uri chars loc .error (lsOff + w) lsLine (lsCol + w)
        (lsOff + w + stmtLen)
      let sh1 := addDiagSh docUri sh .error
        ("Unbekannter Präprozessorbefehl " ++ stmtText) uri lsLine (lsCol + w)
        stmtLen false
      let (endOff, _, loc2) := skipRestOfLine chars loc1
      let loc3 := pushToken uri chars loc2 .inactive (lsOff + stmtLen) lsLine
        (lsCol + stmtLen) endOff
      .handled loc3 sh1
    | none => .pass
  else
    -- inactive `#` line (lines 1533-1545): the token is pushed twice
    let (endOff, _, loc1) := skipRestOfLine chars loc
    let loc2 := pushToken uri chars loc1 .inactive lsOff lsLine 0 endOff
    let loc3 := pushToken uri chars loc2 .inactive lsOff lsLine 0 endOff
    let sh1 := addDiagSh docUri sh .hint "inaktiv" uri lsLine 0 (endOff - lsOff) true
    .handled loc3 sh1

/-- The tokenize scanning loop (lines 1242-1842), with the rules from
    the `isLineStart = false` point (line 1548) through the symbol
    rules inlined after the directive dispatch.  `gas` is structural
    fuel shared by the loop iterations and the nested `tokenize`
    invocations (`#include`, capped at 100 by the includeStack check in
    dirDispatch, and macro re-lexing, which the source bounds only by
    the JS call stack: a self-referential define overflows it); every
    iteration consumes at least one character of its file, so any gas
    beyond the total character count of all reachable files plus one
    per nesting is never exhausted. -/
def lexGo (fs : FileSys) (settings : Settings) (docUri : String) :
    Nat → String → List Char → Bool → LexLoc → LexSh → LexLoc × LexSh
  | 0, _, _, _, loc, sh => (loc, sh)
  | g + 1, uri, chars, pre, loc, sh =>
    if sh.crashed then (loc, sh)
    else
    match chars[loc.offset]? with
    | none => (loc, sh)
    | some ch =>
      if wsChar ch then
        lexGo fs settings docUri g uri chars pre (advanceChar chars loc) sh
      else if nlChar ch then
        lexGo fs settings docUri g uri chars pre (advanceChar chars loc) sh
      else if ch = '!' then
        let s0 := loc.offset
        let l0 := loc.line
        let c0 := loc.column
        let (endOff, _, loc1) := skipRestOfLine chars loc
        let loc2 := pushToken uri chars loc1 .comment s0 l0 c0 endOff
        lexGo fs settings docUri g uri chars pre loc2 sh
      else if ch = '/' ∧ chars[loc.offset + 1]? = some '*' then
        let s0 := loc.offset
        let l0 := loc.line
        let c0 := loc.column
        let locIn := { loc with offset := loc.offset + 2, column := loc.column + 2 }
        let loc1 := blockCommentEnd chars (chars.length + 1) locIn
        let loc2 := pushToken uri chars loc1 .comment s0 l0 c0 loc1.offset
        lexGo fs settings docUri g uri chars pre loc2 sh
      else
        match (if ch = '#' ∧ pre ∧ loc.lineStart then
                 dirDispatch fs settings docUri uri chars loc sh
               else .pass) with
        | .handled loc1 sh1 =>
          lexGo fs settings docUri g uri chars pre loc1 sh1
        | .inc loc1 sh1 absPath txt =>
          let shP := { sh1 with includeStack := sh1.includeStack ++ [absPath] }
          let childUri := uriFromFilePath absPath
          let lexed := lexGo fs settings docUri g childUri txt.data true lexInit shP
          let sh3 := { lexed.2 with includeStack := lexed.2.includeStack.dropLast }
          let loc2 := { loc1 with tokens := loc1.tokens ++ lexed.1.tokens }
          lexGo fs settings docUri g uri chars pre loc2 sh3
        | .pass =>
          -- ordinary scanning; `isLineStart = false` (line 1548)
          let loc0 := { loc with lineStart := false }
          -- `!defineStack[defineStack.length - 1]` (line 1551)
          if (match sh.defineStack.getLast? with | some b => !b | none => true) then
            let s0 := loc0.offset
            let l0 := loc0.line
            let (endOff, _, loc1) := skipRestOfLine chars loc0
            let loc2 := pushToken uri chars loc1 .inactive s0 l0 0 endOff
            let sh1 := addDiagSh docUri sh .hint "inaktiv" uri l0 0 (endOff - s0) true
            lexGo fs settings docUri g uri chars pre loc2 sh1
          else if ch = '\'' then
            let s0 := loc0.offset
            let l0 := loc0.line
            let c0 := loc0.column
            let (e0, ty) := strEnd chars s0
            let loc1 := { loc0 with offset := e0, column := c0 + (e0 - s0) }
            let loc2 := pushToken uri chars loc1 ty s0 l0 c0 e0
            lexGo fs settings docUri g uri chars pre loc2 sh
          else if digitChar ch ∨ (ch = '.' ∧ (chars[loc0.offset + 1]?).elim false digitChar) then
            let s0 := loc0.offset
            let l0 := loc0.line
            let c0 := loc0.column
            let e0 := numEnd chars s0
            let loc1 := { loc0 with offset := e0, column := c0 + (e0 - s0) }
            let loc2 := pushToken uri chars loc1 .number s0 l0 c0 e0
            lexGo fs settings docUri g uri chars pre loc2 sh
          else if alphaChar ch then
            let s0 := loc0.offset
            let l0 := loc0.line
            let c0 := loc0.column
            let run := ((chars.drop (s0 + 1)).takeWhile identChar).length
            let e0 := s0 + 1 + run
            let value := String.mk ((chars.drop s0).take (1 + run))
            let loc1 := { loc0 with offset := e0, column := c0 + 1 + run }
            if assocHas sh.defines value then
              let entry := (sh.defines.lookup value).getD ⟨none, none⟩
              let dv := entry.value.getD ""
              let loc2 := pushToken uri chars loc1 .preproc s0 l0 c0 e0
              let loc3 := { loc2 with tokens := setLastDefine loc2.tokens dv }
              let relexed := lexGo fs settings docUri g uri dv.data false lexInit sh
              let loc4 := { loc3 with tokens :=
                loc3.tokens ++ expandDefine l0 c0 s0 (e0 - s0) relexed.1.tokens }
              lexGo fs settings docUri g uri chars pre loc4 relexed.2
            else
              let ty :=
                if PEARL_KEYWORDS.contains value then TokType.keyword
                else if OPERATOR_KEYWORDS.contains value then .operator
                else if TYPE_KEYWORDS.contains value then .typeKw
                else .identifier
              let loc2 := pushToken uri chars loc1 ty s0 l0 c0 e0
              let sh1 :=
                if ty = TokType.keyword then
                  if value = "SYSTEM" then
                    if sh.sect = "problem" then { sh with sect := "system" } else sh
                  else if value = "PROBLEM" then
                    if sh.sect = "system" then { sh with sect := "problem" } else sh
                  else sh
                else sh
              lexGo fs settings docUri g uri chars pre loc2 sh1
          else
            let s0 := loc0.offset
            let l0 := loc0.line
            let c0 := loc0.column
            let (ty, n) := symClass sh.sect ch (chars[s0 + 1]?) (chars[s0 + 2]?)
            let loc1 := { loc0 with offset := s0 + n, column := c0 + n }
            let loc2 := pushToken uri chars loc1 ty s0 l0 c0 (s0 + n)
            lexGo fs settings docUri g uri chars pre loc2 sh

/-- One full `tokenize(uri, text, preprocess)` invocation with the
    given gas. -/
def tokenizeRun (fs : FileSys) (settings : Settings) (docUri uri : String)
    (text : String) (pre : Bool) (gas : Nat) (sh : LexSh) : LexLoc × LexSh :=
  lexGo fs settings docUri gas uri text.data pre lexInit sh

-- ---------------------------------------------------------------
-- Semantic analyzer (analyze, lines 926-2647)
-- ---------------------------------------------------------------

/-- Tokens skipped by the navigation helpers (lines 1024-1052). -/
def isCodeTok (t : Token) : Bool :=
  t.type ≠ .comment ∧ t.type ≠ .inactive

/-- findNextCodeToken (lines 1036-1043), as an index. -/
def findNextCodeIdx (toks : List Token) (i : Nat) : Option Nat :=
  ((toks.drop (i + 1)).findIdx? isCodeTok).map (fun k => i + 1 + k)

/-- findPreviousCodeToken (lines 1024-1031). -/
def findPrevCodeIdx (toks : List Token) (i : Nat) : Option Nat :=
  (((toks.take i).reverse).findIdx? isCodeTok).map (fun k => i - 1 - k)

/-- findNextSemicolonToken (lines 1054-1062). -/
def findNextSemiIdx (toks : List Token) (i : Nat) : Option Nat :=
  ((toks.drop (i + 1)).findIdx? (fun t => t.type = .symbol ∧ t.value = ";")).map
    (fun k => i + 1 + k)

/-- skipComments (lines 1045-1052). -/
def skipCommentsIdx (toks : List Token) (i : Nat) : Option Nat :=
  ((toks.drop i).findIdx? isCodeTok).map (fun k => i + k)

/-- Bracket scan of findMatchingParenToken (lines 1079-1107); the stack
    holds the opening bracket characters. -/
def parenGo : List Token → Nat → List String → Option Nat
  | [], _, _ => none
  | tk :: rest, i, stack =>
    if ¬ isCodeTok tk then parenGo rest (i + 1) stack
    else if tk.type = .symbol then
      if tk.value = "(" ∨ tk.value = "[" then parenGo rest (i + 1) (tk.value :: stack)
      else if tk.value = ")" ∨ tk.value = "]" then
        match stack with
        | top :: stack' =>
          if (tk.value = ")" ∧ top = "]") ∨ (tk.value = "]" ∧ top = ")") then none
          else if stack' = [] then some i
          else parenGo rest (i + 1) stack'
        | [] => none
      else if tk.value = ";" then none
      else parenGo rest (i + 1) stack
    else parenGo rest (i + 1) stack

def findMatchingParenIdx (toks : List Token) (start : Nat) : Option Nat :=
  match toks[start]? with
  | none => none
  | some opening => parenGo (toks.drop (start + 1)) (start + 1) [opening.value]

/-- Result of lookupSymbol (lines 1109-1142): the matched symbol with
    the absolute scope index it lives in, or a builtin-table hit. -/
inductive LookupRes where
  | found (idx : Nat) (id : Identifier)
  | builtinHit (b : BuiltinInfo)
  deriving Repr

/-- lookupSymbol: innermost-to-outermost, the first scope holding the
    name decides (a kind mismatch there returns nothing, with no
    fallthrough to outer scopes); the builtin table is consulted only
    for kind PROCEDURE when no scope holds the name. -/
def lookupSymbol (scopes : List Scope) (name kind : String) : Option LookupRes :=
  match scopes.reverse.findIdx? (fun sc => (sc.lookup name).isSome) with
  | some k =>
    let idx := scopes.length - 1 - k
    match (scopes[idx]?).bind (fun sc => sc.lookup name) with
    | some id =>
      if kind = "" ∨ id.typeDescription.typename = kind then some (.found idx id)
      else none
    | none => none
  | none =>
    if kind = "PROCEDURE" then (builtinLookup name).map .builtinHit
    else none

/-- createIdentifier (lines 2013-2031). -/
def createIdentifier (nameToken : Token) (dim : Nat) (inv ref : Bool)
    (typename : String) (global init : Bool) : Identifier :=
  let tn := if typename = "PROC" ∨ typename = "ENTRY" then "PROCEDURE" else typename
  { nameToken := nameToken,
    typeDescription :=
      { dim := dim, inv := inv, ref := ref, typename := tn, global := global,
        init := init, identAttr := false },
    used := global }

/-- parseTypeDescription state (lines 1857-1868); `parenLevel` is a JS
    number that can go negative. -/
structure PtdSt where
  parenLevel : Int
  lastIndex : Nat
  arrayDim : Nat
  inv : Bool
  ref : Bool
  global : Bool
  init : Bool
  identA : Bool
  typename : Option String
  state : String
  deriving Repr

/-- The scan loop of parseTypeDescription (lines 1870-1946), returning
    the possibly updated token list (the `tt.value = 'PROCEDURE'`
    mutation at line 1915) and the final state; the `typeTokens`
    accumulator feeds nothing observable and is not modelled. -/
def ptdGo (endIdx : Nat) : Nat → List Token → Nat → PtdSt →
    List Token × PtdSt
  | 0, toks, _, st => (toks, st)
  | f + 1, toks, i, st =>
  if endIdx < i then (toks, st)
  else
    match toks[i]? with
    | none => (toks, st)
    | some tt =>
      if ¬ isCodeTok tt then ptdGo endIdx f toks (i + 1) st
      else if tt.type = .symbol then
        if tt.value = "," then
          if st.parenLevel = 0 then (toks, { st with lastIndex := i })
          else
            let st1 := if st.state = "dimensions" then { st with arrayDim := st.arrayDim + 1 } else st
            ptdGo endIdx f toks (i + 1) st1
        else if tt.value = "(" then
          let st1 := if st.state = "start" then { st with arrayDim := 1, state := "dimensions" } else st
          ptdGo endIdx f toks (i + 1) { st1 with parenLevel := st1.parenLevel + 1 }
        else if tt.value = ")" then
          let st1 := if st.state = "dimensions" then { st with state := "inv" } else st
          ptdGo endIdx f toks (i + 1) { st1 with parenLevel := st1.parenLevel - 1 }
        else ptdGo endIdx f toks (i + 1) st
      else if tt.type = .keyword then
        if tt.value = "INV" ∧ (st.state = "start" ∨ st.state = "dim" ∨ st.state = "inv") then
          ptdGo endIdx f toks (i + 1) { st with state := "ref", inv := true }
        else if tt.value = "REF" ∧ (st.state = "start" ∨ st.state = "dim" ∨ st.state = "inv" ∨ st.state = "ref") then
          ptdGo endIdx f toks (i + 1) { st with state := "type", ref := true }
        else if (tt.value = "PROC" ∨ tt.value = "PROCEDURE" ∨ tt.value = "ENTRY" ∨
                 tt.value = "TASK" ∨ tt.value = "DATION" ∨ tt.value = "SEMA" ∨
                 tt.value = "BOLT") ∧
                (st.state = "start" ∨ st.state = "dim" ∨ st.state = "inv" ∨
                 st.state = "ref" ∨ st.state = "type") then
          let newVal := if tt.value = "PROC" ∨ tt.value = "ENTRY" then "PROCEDURE" else tt.value
          let toks1 := toks.set i { tt with value := newVal }
          ptdGo endIdx f toks1 (i + 1) { st with state := "global", typename := some newVal }
        else if tt.value = "GLOBAL" ∧ st.state = "global" then
          ptdGo endIdx f toks (i + 1) { st with state := "init", global := true }
        else if (tt.value = "INIT" ∨ tt.value = "INITIAL" ∨ tt.value = "PRESET") ∧
                (st.state = "global" ∨ st.state = "init") then
          ptdGo endIdx f toks (i + 1) { st with state := "initval", init := true }
        else if tt.value = "IDENT" ∧ (st.state = "global" ∨ st.state = "init") then
          ptdGo endIdx f toks (i + 1) { st with state := "initval", identA := true }
        else ptdGo endIdx f toks (i + 1) st
      else if tt.type = .identifier then
        if st.state = "start" ∨ st.state = "dim" ∨ st.state = "inv" ∨
           st.state = "ref" ∨ st.state = "type" then
          ptdGo endIdx f toks (i + 1) { st with state := "global", typename := some tt.value }
        else ptdGo endIdx f toks (i + 1) st
      else if tt.type = .typeKw then
        if st.state = "start" ∨ st.state = "dim" ∨ st.state = "inv" ∨
           st.state = "ref" ∨ st.state = "type" then
          ptdGo endIdx f toks (i + 1) { st with state := "global", typename := some tt.value }
        else ptdGo endIdx f toks (i + 1) st
      else ptdGo endIdx f toks (i + 1) st

/-- parseTypeDescription: (updated tokens, lastIndex, typeDescription). -/
def parseTypeDescription (toks : List Token) (startIdx endIdx : Nat) :
    List Token × Nat × TypeDesc :=
  let st0 : PtdSt :=
    { parenLevel := 0, lastIndex := endIdx + 1, arrayDim := 0, inv := false,
      ref := false, global := false, init := false, identA := false,
      typename := none, state := "start" }
  let (toks1, st) := ptdGo endIdx (endIdx + 2) toks startIdx st0
  (toks1, st.lastIndex,
    { dim := st.arrayDim, inv := st.inv, ref := st.ref,
      typename := st.typename.getD "", global := st.global, init := st.init,
      identAttr := st.identA })

/-- The grouped-name collector of parseSpcDclTokens (lines 1974-1992):
    names until `)`, commas skipped, anything else warned about;
    returns (names, index after `)` or endIdx+1, warnings). -/
def psdNames (docUri : String) (toks : List Token) (endIdx : Nat) :
    Nat → Nat → List Token → List Diag →
    List Token × Nat × List Diag
  | 0, _, names, ds => (names, endIdx + 1, ds)
  | f + 1, i, names, ds =>
  if endIdx < i then (names, endIdx + 1, ds)
  else
    match toks[i]? with
    | none => (names, endIdx + 1, ds)
    | some tt =>
      if ¬ isCodeTok tt then psdNames docUri toks endIdx f (i + 1) names ds
      else if tt.type = .identifier then
        psdNames docUri toks endIdx f (i + 1) (names ++ [tt]) ds
      else if tt.type = .symbol ∧ tt.value = "," then
        psdNames docUri toks endIdx f (i + 1) names ds
      else if tt.type = .symbol ∧ tt.value = ")" then
        (names, i + 1, ds)
      else
        let ds1 :=
          if tt.uri = docUri then
            ds ++ [⟨.warning, "'" ++ tt.value ++ "' nicht erlaubt.", tt.uri,
                   tt.line, tt.column, tt.length, false⟩]
          else ds
        psdNames docUri toks endIdx f (i + 1) names ds1

/-- The statement loop of parseSpcDclTokens (lines 1963-2011), returning
    (updated tokens, declared entries, warnings). -/
def psdGo (docUri : String) (endIdx : Nat) (fuel : Nat) (toks : List Token)
    (j : Nat) (acc : List Identifier) (ds : List Diag) :
    List Token × List Identifier × List Diag :=
  match fuel with
  | 0 => (toks, acc, ds)
  | fuel + 1 =>
    if endIdx < j then (toks, acc, ds)
    else
      match skipCommentsIdx toks j with
      | none => (toks, acc, ds)
      | some j1 =>
        match toks[j1]? with
        | none => (toks, acc, ds)
        | some tk =>
          if tk.type = .symbol ∧ tk.value = "(" then
            let (names, it, ds1) := psdNames docUri toks endIdx (endIdx + 2) (j1 + 1) [] ds
            let (toks1, lastIdx, td) := parseTypeDescription toks it endIdx
            let acc1 := acc ++ names.map (fun nt =>
              { nameToken := nt, typeDescription := td, used := false })
            psdGo docUri endIdx fuel toks1 (lastIdx + 1) acc1 ds1
          else
            let (toks1, lastIdx, td) := parseTypeDescription toks (j1 + 1) endIdx
            let acc1 := acc ++ [{ nameToken := tk, typeDescription := td, used := false }]
            psdGo docUri endIdx fuel toks1 (lastIdx + 1) acc1 ds

def parseSpcDclTokens (docUri : String) (toks : List Token)
    (startIdx endIdx : Nat) : List Token × List Identifier × List Diag :=
  psdGo docUri endIdx (endIdx + 2) toks startIdx [] []

/-- The mutable state of the analyzer pass: the (annotatable) token
    array, the two stacks, diagnostics, the per-PROC/TASK goto list,
    the FOR loop-variable latch and the MODEND flag; `crashed` models a
    thrown JS exception ending the pass without a result. -/
structure AState where
  tokens : List Token
  blockStack : List Frame
  scopeStack : List Scope
  diags : List Diag
  gotoList : List Token
  loopVar : Bool
  modendFound : Bool
  crashed : Bool
  deriving Repr

/-- Per-run read-only context: the analyzed document's uri, the
    optional stopOffset, and the top-level file's line-end records
    (`lineOffsets`), read when block closers build folding ranges. -/
structure ACtx where
  docUri : String
  stopOffset : Option Nat
  lineEnds : List (Nat × Nat)
  deriving Repr

def addDiagA (docUri : String) (st : AState) (sev : Severity) (msg dUri : String)
    (line col len : Nat) (unnec : Bool) : AState :=
  if dUri = docUri then
    { st with diags := st.diags ++ [⟨sev, msg, dUri, line, col, len, unnec⟩] }
  else st

/-- addDiagnosticError on a token (lines 962-964). -/
def addErrTok (docUri : String) (st : AState) (msg : String) (t : Token) : AState :=
  addDiagA docUri st .error msg t.uri t.line t.column t.length false

def addWarnTok (docUri : String) (st : AState) (msg : String) (t : Token) : AState :=
  addDiagA docUri st .warning msg t.uri t.line t.column t.length false

/-- addDiagnosticHint with the Unnecessary tag (lines 978-980). -/
def addHintTok (docUri : String) (st : AState) (msg : String) (t : Token) : AState :=
  addDiagA docUri st .hint msg t.uri t.line t.column t.length true

def pushFrame (st : AState) (kw : String) (t : Token) : AState :=
  { st with blockStack := st.blockStack ++ [⟨kw, t⟩] }

def popFrame (st : AState) : AState :=
  { st with blockStack := st.blockStack.dropLast }

def pushScope (st : AState) : AState :=
  { st with scopeStack := st.scopeStack ++ [[]] }

/-- `if (scopeStack.length > 1) scopeStack.pop();` (lines 2155, 2223). -/
def popScopeIfGt1 (st : AState) : AState :=
  if 1 < st.scopeStack.length then { st with scopeStack := st.scopeStack.dropLast }
  else st

/-- Store into the scope at absolute index `idx`. -/
def setScopeAt (st : AState) (idx : Nat) (name : String) (id : Identifier) : AState :=
  match st.scopeStack[idx]? with
  | some sc => { st with scopeStack := st.scopeStack.set idx (assocSet sc name id) }
  | none => st

/-- Store into `scopeStack[scopeStack.length - 1]`. -/
def setScopeTop (st : AState) (name : String) (id : Identifier) : AState :=
  setScopeAt st (st.scopeStack.length - 1) name id

/-- `t.definition = symbol` (snapshot of what hover reads). -/
def setTokenDef (st : AState) (i : Nat) (id : Identifier) : AState :=
  match st.tokens[i]? with
  | some t =>
    let t1 := { t with definition := some (⟨id.nameToken.offset, id.typeDescription⟩ : DefRef) }
    { st with tokens := st.tokens.set i t1 }
  | none => st

/-- `t.builtin = builtinInfo`. -/
def setTokenBuiltin (st : AState) (i : Nat) (b : BuiltinInfo) : AState :=
  match st.tokens[i]? with
  | some t => { st with tokens := st.tokens.set i { t with builtin := some b } }
  | none => st

def crash (st : AState) : AState :=
  { st with crashed := true }

/-- markUnusedVariables (lines 2033-2043): warn (plus dimming hint) on
    every not-used, not-GLOBAL symbol of the innermost scope, in
    insertion order. -/
def markUnusedVariables (docUri : String) (st : AState) : AState :=
  match st.scopeStack.getLast? with
  | none => st
  | some sc =>
    sc.foldl (fun acc p =>
      if ¬ p.2.used ∧ ¬ p.2.typeDescription.global then
        addHintTok docUri
          (addWarnTok docUri acc
            ("Bezeichner " ++ p.2.nameToken.value ++ " nicht verwendet.")
            p.2.nameToken)
          "inaktiv" p.2.nameToken
      else acc) st

/-- `structuredClone(t)` plus `lineOffsets[t.line-1]` (lines 2156-2159
    etc.): the folding end token reads the PREVIOUS line's record; on
    line 0 the index is -1 and the access throws; an included file's
    token can also name a line the top-level file does not have.  Entry
    `l` of the top-level lineOffsets exists iff `l ≤ lineEnds.length`. -/
def endTokenThrows (lineEnds : List (Nat × Nat)) (t : Token) : Bool :=
  t.line = 0 ∨ lineEnds.length + 1 < t.line

-- ---------------------------------------------------------------
-- Analyzer keyword handlers (the main loop body, lines 2046-2618)
-- ---------------------------------------------------------------

/-- One unresolved-GOTO error (the filter/forEach at lines 2126-2128). -/
def gotoUndefErr (docUri : String) (acc : AState) (lbl : Token) : AState :=
  if (lookupSymbol acc.scopeStack lbl.value "@LABEL").isNone then
    addErrTok docUri acc ("GOTO: Label " ++ lbl.value ++ " nicht definiert.") lbl
  else acc

/-- Marking one referenced label used (lines 2133-2139). -/
def gotoMarkUsed (acc : AState) (lbl : Token) : AState :=
  match lookupSymbol acc.scopeStack lbl.value "@LABEL" with
  | some (.found idx id) => setScopeAt acc idx lbl.value { id with used := true }
  | _ => acc

/-- One unreferenced-label warning (lines 2142-2147). -/
def labelUnusedWarn (docUri : String) (acc : AState) (p : String × Identifier) :
    AState :=
  if ¬ p.2.used ∧ p.2.typeDescription.typename = "@LABEL" then
    addHintTok docUri
      (addWarnTok docUri acc
        ("Label " ++ p.2.nameToken.value ++ " nicht verwendet.") p.2.nameToken)
      "inaktiv" p.2.nameToken
  else acc

/-- One DCL insertion with the duplicate check (lines 2245-2253). -/
def dclInsert (docUri : String) (acc : AState) (dcl : Identifier) : AState :=
  let sc := acc.scopeStack.getLast?.getD []
  if (sc.lookup dcl.nameToken.value).isSome then
    addErrTok docUri acc
      ("Variable " ++ dcl.nameToken.value ++ " existiert bereits.") dcl.nameToken
  else setScopeTop acc dcl.nameToken.value dcl

/-- One SPC insertion (line 2270); the PROC parameter loop (line 2357)
    inserts identically. -/
def spcInsert (acc : AState) (sp : Identifier) : AState :=
  setScopeTop acc sp.nameToken.value sp

/-- END (lines 2116-2167). -/
def handleEnd (ctx : ACtx) (st : AState) (t : Token) (i : Nat) : Nat × AState :=
  let bad : Bool :=
    match st.blockStack.getLast? with
    | none => true
    | some fr => ! endOpenersEND.contains fr.keyword
  if bad then
    (i + 1, addErrTok ctx.docUri st
      "Unerwartetes END ohne passenden Block (TASK/PROC/REPEAT/BEGIN)." t)
  else
    match st.blockStack.getLast? with
    | none => (i + 1, st)
    | some fr =>
      let st1 := popFrame st
      let st2 :=
        if fr.keyword = "PROC" ∨ fr.keyword = "PROCEDURE" ∨ fr.keyword = "TASK" then
          let sta := st1.gotoList.foldl (gotoUndefErr ctx.docUri) st1
          if sta.scopeStack.length = 2 then
            let stb := sta.gotoList.foldl gotoMarkUsed sta
            let sc := stb.scopeStack.getLast?.getD []
            sc.foldl (labelUnusedWarn ctx.docUri) stb
          else sta
        else st1
      let st3 := markUnusedVariables ctx.docUri st2
      let st4 := popScopeIfGt1 st3
      if endTokenThrows ctx.lineEnds t then (i + 1, crash st4) else (i + 1, st4)

/-- ELSE (lines 2169-2189): closes the IF frame and reopens an ELSE
    frame at the same depth. -/
def handleElse (ctx : ACtx) (st : AState) (t : Token) (i : Nat) : Nat × AState :=
  let bad : Bool :=
    match st.blockStack.getLast? with
    | none => true
    | some fr => ! endOpenersELSE.contains fr.keyword
  if bad then
    (i + 1, addErrTok ctx.docUri st "Unerwartetes ELSE ohne passenden Block (IF)." t)
  else
    let st1 := popFrame st
    if endTokenThrows ctx.lineEnds t then (i + 1, crash st1)
    else (i + 1, pushFrame st1 "ELSE" t)

/-- FIN (lines 2191-2211). -/
def handleFin (ctx : ACtx) (st : AState) (t : Token) (i : Nat) : Nat × AState :=
  let bad : Bool :=
    match st.blockStack.getLast? with
    | none => true
    | some fr => ! endOpenersFIN.contains fr.keyword
  if bad then
    (i + 1, addErrTok ctx.docUri st "Unerwartetes FIN ohne passenden Block (IF/CASE)." t)
  else
    let st1 := popFrame st
    if endTokenThrows ctx.lineEnds t then (i + 1, crash st1) else (i + 1, st1)

/-- MODEND (lines 2213-2235): valid only when the stack holds exactly
    one frame and it is a MODULE/SHELLMODULE frame. -/
def handleModend (ctx : ACtx) (st : AState) (t : Token) (i : Nat) : Nat × AState :=
  let ok : Bool :=
    st.blockStack.length == 1 &&
    (match st.blockStack.getLast? with
     | some fr => endOpenersMODEND.contains fr.keyword
     | none => false)
  if ! ok then
    (i + 1, addErrTok ctx.docUri st
      "Unerwartetes MODEND ohne passenden Block (MODULE/SHELLMODULE)." t)
  else
    let st1 := popFrame { st with modendFound := true }
    let st2 := markUnusedVariables ctx.docUri st1
    let st3 := popScopeIfGt1 st2
    if endTokenThrows ctx.lineEnds t then (i + 1, crash st3) else (i + 1, st3)

/-- DCL / DECLARE (lines 2238-2258). -/
def handleDcl (ctx : ACtx) (st : AState) (_t : Token) (i : Nat) : Nat × AState :=
  match findNextSemiIdx st.tokens i with
  | none => (i + 1, st)
  | some si =>
    let (toks1, parsed, dnew) := parseSpcDclTokens ctx.docUri st.tokens (i + 1) (si - 1)
    let st1 := { st with tokens := toks1, diags := st.diags ++ dnew }
    let st2 := parsed.foldl (dclInsert ctx.docUri) st1
    (si + 1, st2)

/-- SPC / SPECIFY (lines 2261-2276): like DCL but without the duplicate
    check. -/
def handleSpc (ctx : ACtx) (st : AState) (_t : Token) (i : Nat) : Nat × AState :=
  match findNextSemiIdx st.tokens i with
  | none => (i + 1, st)
  | some si =>
    let (toks1, parsed, dnew) := parseSpcDclTokens ctx.docUri st.tokens (i + 1) (si - 1)
    let st1 := { st with tokens := toks1, diags := st.diags ++ dnew }
    let st2 := parsed.foldl spcInsert st1
    (si + 1, st2)

/-- MODULE / SHELLMODULE (lines 2279-2292): declares the module name in
    the global scope (index 0) marked used, then pushes a frame — and
    no scope. -/
def handleModule (_ctx : ACtx) (st : AState) (t : Token) (i : Nat) (kw : String) :
    Nat × AState :=
  let (i1, st1) :=
    match findNextCodeIdx st.tokens i with
    | some ni =>
      match st.tokens[ni]? with
      | some nt =>
        if nt.type = .identifier then
          let id := { createIdentifier nt 0 false false kw false false with used := true }
          (ni, setScopeAt st 0 nt.value id)
        else (i, st)
      | none => (i, st)
    | none => (i, st)
  (i1 + 1, pushFrame st1 kw t)

/-- IF / CASE (lines 2294-2298): a frame and no scope. -/
def handleIfCase (_ctx : ACtx) (st : AState) (t : Token) (i : Nat) (kw : String) :
    Nat × AState :=
  (i + 1, pushFrame st kw t)

/-- SYSTEM / PROBLEM (lines 2300-2311); the error message always names
    SYSTEM. -/
def handleSystem (ctx : ACtx) (st : AState) (t : Token) (i : Nat) (kw : String) :
    Nat × AState :=
  let sem := findNextCodeIdx st.tokens i
  let nsem := findNextSemiIdx st.tokens i
  let ok : Bool :=
    st.blockStack.length == 1 &&
    (match st.blockStack.head? with
     | some fr => fr.keyword == "MODULE" || fr.keyword == "SHELLMODULE"
     | none => false)
  let st1 :=
    if ! ok then
      addErrTok ctx.docUri st
        "Unerwartetes SYSTEM ohne passenden Block (MODULE/SHELLMODULE)." t
    else st
  let st2 :=
    match sem with
    | some s =>
      if nsem ≠ some s then
        match st1.tokens[s]? with
        | some stok => addErrTok ctx.docUri st1 (kw ++ " Semikolon erwartet.") stok
        | none => st1
      else st1
    | none => st1
  match sem with
  | some s => (s + 1, st2)
  | none => (i + 1, st2)

/-- The `identifier.used = identifier.typeDescription.global = true`
    mutation for a PROC header's GLOBAL suffix (line 2382); the symbol
    was stored in the global scope (index 0) just before. -/
def markGlobalProc (st : AState) (labelName : String) : AState :=
  match st.scopeStack[0]? with
  | some sc =>
    match sc.lookup labelName with
    | some id =>
      setScopeAt st 0 labelName
        { id with used := true,
                  typeDescription := { id.typeDescription with global := true } }
    | none => st
  | none => st

/-- The parameter-list / RETURNS / GLOBAL tail of an accepted PROC
    header (lines 2347-2389); `st` already holds the pushed frame and
    scope.  `null.token` dereferences throw. -/
def procParams (ctx : ACtx) (st : AState) (_t : Token) (i : Nat)
    (labelName : String) : Nat × AState :=
  match findNextCodeIdx st.tokens i with
  | none => (i + 1, st)
  | some ni =>
    match st.tokens[ni]? with
    | none => (i + 1, st)
    | some nt =>
      if ¬ (nt.type = .symbol ∧ nt.value = "(") then (i + 1, st)
      else
        match findMatchingParenIdx st.tokens ni with
        | none => (i + 1, st)
        | some cp =>
          let (toks1, params, dnew) := parseSpcDclTokens ctx.docUri st.tokens (ni + 1) (cp - 1)
          let stA := { st with tokens := toks1, diags := st.diags ++ dnew }
          let stB := params.foldl spcInsert stA
          match findNextCodeIdx stB.tokens cp with
          | none => (cp + 1, stB)
          | some k1 =>
            match stB.tokens[k1]? with
            | none => (cp + 1, stB)
            | some kt1 =>
              if kt1.type ≠ .keyword then (cp + 1, stB)
              else if kt1.value = "RETURNS" then
                match findNextCodeIdx stB.tokens k1 with
                | none => (k1 + 1, crash stB)
                | some k2 =>
                  match stB.tokens[k2]? with
                  | none => (k1 + 1, crash stB)
                  | some kt2 =>
                    if kt2.type = .symbol ∧ kt2.value = "(" then
                      match findMatchingParenIdx stB.tokens k2 with
                      | some cp2 =>
                        match findNextCodeIdx stB.tokens k2 with
                        | none => (k2 + 1, crash stB)
                        | some k3 =>
                          let (toks2, _, _) := parseTypeDescription stB.tokens k3 cp2
                          let stC := { stB with tokens := toks2 }
                          (cp2 + 1, stC)
                      | none =>
                        (k1 + 1, addErrTok ctx.docUri stB ") erwartet." kt2)
                    else
                      let stE := addErrTok ctx.docUri stB "( erwartet." kt2
                      if kt2.value = "GLOBAL" then (k2 + 1, markGlobalProc stE labelName)
                      else (k1 + 1, stE)
              else if kt1.value = "GLOBAL" then
                (k1 + 1, markGlobalProc stB labelName)
              else (cp + 1, stB)

/-- PROC / PROCEDURE / TASK (lines 2316-2397): the label-prefixed
    implementation header is accepted exactly when `scopeStack.length`
    is 1; it resets the goto list, declares the name in the current
    (global) scope, and pushes a frame plus a scope. -/
def handleProcTask (ctx : ACtx) (st : AState) (t : Token) (i : Nat) (kw : String) :
    Nat × AState :=
  let prevI := findPrevCodeIdx st.tokens i
  let prev2I := prevI.bind (findPrevCodeIdx st.tokens)
  let prevOk : Bool :=
    match prevI.bind (fun k => st.tokens[k]?) with
    | some pt => pt.type == .symbol && pt.value == ":"
    | none => false
  match prev2I.bind (fun k => st.tokens[k]?) with
  | some p2 =>
    if prevOk ∧ p2.type = .identifier then
      let labelName := p2.value
      let st0 := { st with gotoList := [] }
      if st0.scopeStack.length = 1 then
        let id1 := { createIdentifier p2 0 false false kw false false with
                       used := kw = "TASK" }
        let st1 := setScopeTop st0 labelName id1
        let st2 := pushScope (pushFrame st1 kw t)
        if kw = "PROC" ∨ kw = "PROCEDURE" then procParams ctx st2 t i labelName
        else (i + 1, st2)
      else
        (i + 1, addErrTok ctx.docUri st0
          (kw ++ " '" ++ p2.value ++ "' nur global erlaubt. " ++
            toString st0.scopeStack.length) p2)
    else (i + 1, st)
  | none => (i + 1, st)

/-- FOR (lines 2399-2411): binds the loop variable, pushes a REPEAT
    frame plus scope, and latches `loopVar` so the following REPEAT does
    not double-push; the cursor jumps one token past the variable. -/
def handleFor (_ctx : ACtx) (st : AState) (t : Token) (i : Nat) : Nat × AState :=
  match findNextCodeIdx st.tokens i with
  | some ni =>
    match st.tokens[ni]? with
    | some nt =>
      if nt.type = .identifier then
        let st1 := pushScope (pushFrame { st with loopVar := true } "REPEAT" t)
        let id := createIdentifier nt 0 false false "FIXED" false false
        (ni + 2, setScopeTop st1 nt.value id)
      else (i + 1, st)
    | none => (i + 1, st)
  | none => (i + 1, st)

/-- REPEAT (lines 2414-2421). -/
def handleRepeat (_ctx : ACtx) (st : AState) (t : Token) (i : Nat) (kw : String) :
    Nat × AState :=
  let st1 := if ¬ st.loopVar then pushScope (pushFrame st kw t) else st
  (i + 1, { st1 with loopVar := false })

/-- BEGIN (lines 2424-2428). -/
def handleBegin (_ctx : ACtx) (st : AState) (t : Token) (i : Nat) (kw : String) :
    Nat × AState :=
  (i + 1, pushScope (pushFrame st kw t))

/-- CALL (lines 2432-2455); a missing next token makes the error path
    dereference null. -/
def handleCall (ctx : ACtx) (st : AState) (_t : Token) (i : Nat) (kw : String) :
    Nat × AState :=
  match findNextCodeIdx st.tokens i with
  | none => (i + 1, crash st)
  | some pi =>
    match st.tokens[pi]? with
    | none => (i + 1, crash st)
    | some pt =>
      if pt.type = .identifier then
        let st1 :=
          match lookupSymbol st.scopeStack pt.value "PROCEDURE" with
          | some (.builtinHit b) => setTokenBuiltin st pi b
          | some (.found idx id) =>
            setTokenDef (setScopeAt st idx pt.value { id with used := true }) pi id
          | none =>
            addErrTok ctx.docUri st
              ("Aufruf von '" ++ pt.value ++
                "' ohne passende PROC-Deklaration (PROC/DCL PROC/SPC PROC/ENTRY).") pt
        (pi + 1, st1)
      else
        (i + 1, addErrTok ctx.docUri st
          (kw ++ ": Bezeichner (PROC/PROCEDURE/ENTRY) erwartet.") pt)

/-- GOTO (lines 2457-2475): records the target for the enclosing
    PROC/TASK's END check (the source message misspells "Bezeicher"). -/
def handleGoto (ctx : ACtx) (st : AState) (_t : Token) (i : Nat) (kw : String) :
    Nat × AState :=
  match findNextCodeIdx st.tokens i with
  | none => (i + 1, crash st)
  | some li =>
    match st.tokens[li]? with
    | none => (i + 1, crash st)
    | some ltok =>
      let sem := findNextCodeIdx st.tokens li
      let nsem := findNextSemiIdx st.tokens i
      let st1 :=
        if ltok.type = .identifier then { st with gotoList := st.gotoList ++ [ltok] }
        else addErrTok ctx.docUri st (kw ++ ": Bezeicher (Label) erwartet.") ltok
      let st2 :=
        match sem with
        | some s =>
          if nsem ≠ some s then
            match st1.tokens[s]? with
            | some stok => addErrTok ctx.docUri st1 (kw ++ " Semikolon erwartet.") stok
            | none => st1
          else st1
        | none => st1
      match sem with
      | some s => (s + 1, st2)
      | none => (i + 1, st2)

/-- ACTIVATE / PREVENT / TERMINATE / SUSPEND / CONTINUE / RESUME
    (lines 2478-2536): optional task name resolved with kind TASK,
    optional PRIO clause, terminating semicolon. -/
def taskCtrlPhase1 (ctx : ACtx) (st : AState) (i : Nat) (kw : String)
    (taskMode : OpMode) : AState × Nat × Option Nat × Bool :=
  let n0 := findNextCodeIdx st.tokens i
  match n0 with
  | some ni =>
    match st.tokens[ni]? with
    | some nt =>
      if nt.type = .identifier then
        let stA :=
          match lookupSymbol st.scopeStack nt.value "TASK" with
          | some (.found idx id) =>
            if taskMode = .req ∨ taskMode = .opt then
              setTokenDef (setScopeAt st idx nt.value { id with used := true }) ni id
            else
              addErrTok ctx.docUri st (kw ++ " darf nur ohne TASK verwendet werden.") nt
          | some (.builtinHit _) => st
          | none =>
            addErrTok ctx.docUri st
              ("TASK '" ++ nt.value ++ "' wird mit " ++ kw ++
                " verwendet, es existiert aber keine TASK-Deklaration (TASK/SPC TASK).") nt
        (stA, ni, findNextCodeIdx stA.tokens ni, false)
      else
        let stA := if taskMode = .req then addErrTok ctx.docUri st "'TASK-Name erwartet" nt else st
        (stA, i, n0, false)
    | none => (st, i, n0, false)
  | none =>
    if taskMode = .req then (st, i, none, true) else (st, i, none, false)

def taskCtrlPhase2 (ctx : ACtx) (st1 : AState) (iv1 : Nat) (n1 : Option Nat)
    (kw : String) (prioMode : OpMode) : AState × Nat × Option Nat × Bool :=
  match n1 with
  | some ki =>
    match st1.tokens[ki]? with
    | some ktok =>
      if ktok.type = .keyword then
        let stB :=
          if ktok.value = "PRIO" ∨ ktok.value = "PRIORITY" then
            if prioMode = .no then
              addErrTok ctx.docUri st1
                ("'Schlüsselwort PRIO nicht erlaubt bei " ++ kw) ktok
            else st1
          else addErrTok ctx.docUri st1 "'Schlüsselwort PRIO erwartet" ktok
        (stB, ki, findNextSemiIdx stB.tokens ki, false)
      else
        let stB := if prioMode = .req then addErrTok ctx.docUri st1 "'PRIO erwartet" ktok else st1
        (stB, iv1, n1, false)
    | none => (st1, iv1, n1, false)
  | none =>
    if prioMode = .req then (st1, iv1, none, true) else (st1, iv1, n1, false)

def handleTaskCtrl (ctx : ACtx) (st : AState) (_t : Token) (i : Nat) (kw : String)
    (taskMode prioMode : OpMode) : Nat × AState :=
  match taskCtrlPhase1 ctx st i kw taskMode with
  | (st1, iv1, n1, crashed1) =>
    if crashed1 then (i + 1, crash st1)
    else
      match taskCtrlPhase2 ctx st1 iv1 n1 kw prioMode with
      | (st2, iv2, n2, crashed2) =>
        if crashed2 then (iv2 + 1, crash st2)
        else
          match n2 with
          | some si =>
            match st2.tokens[si]? with
            | some stok =>
              if stok.type = .symbol ∧ stok.value = ";" then (si + 1, st2)
              else (iv2 + 1, addErrTok ctx.docUri st2 (kw ++ " Semikolon erwartet.") stok)
            | none => (iv2 + 1, st2)
          | none => (iv2 + 1, crash st2)

/-- SEMASET (lines 2539-2569): preset value, comma, SEMA name,
    semicolon; missing tokens make the chained index lookups throw. -/
def handleSemaset (ctx : ACtx) (st : AState) (_t : Token) (i : Nat) :
    Nat × AState :=
  match findNextCodeIdx st.tokens i with
  | none => (i + 1, crash st)
  | some vi =>
    match st.tokens[vi]? with
    | none => (i + 1, crash st)
    | some vt =>
      match findNextCodeIdx st.tokens vi with
      | none => (i + 1, crash st)
      | some ci =>
        match st.tokens[ci]? with
        | none => (i + 1, crash st)
        | some ctok =>
          match findNextCodeIdx st.tokens ci with
          | none => (i + 1, crash st)
          | some semaI =>
            match st.tokens[semaI]? with
            | none => (i + 1, crash st)
            | some semaTok =>
              let sem := findNextCodeIdx st.tokens semaI
              let nsem := findNextSemiIdx st.tokens i
              let st1 :=
                if vt.type ≠ .number then
                  addErrTok ctx.docUri st "SEMASET Preset-Wert ist ungültig." vt
                else st
              let st2 :=
                if ctok.type ≠ .symbol ∧ ctok.value ≠ "," then
                  addErrTok ctx.docUri st1 "SEMASET Komma erwartet." ctok
                else st1
              let st3 :=
                if semaTok.type = .identifier then
                  match lookupSymbol st2.scopeStack semaTok.value "SEMA" with
                  | some (.found idx id) =>
                    setTokenDef (setScopeAt st2 idx semaTok.value { id with used := true }) semaI id
                  | some (.builtinHit _) => st2
                  | none =>
                    addErrTok ctx.docUri st2
                      ("SEMA '" ++ semaTok.value ++
                        "' wird mit SEMASET verwendet, es existiert aber keine SEMA-Deklaration (DCL/SPC SEMA).") semaTok
                else st2
              let st4 :=
                match sem with
                | some s =>
                  if nsem ≠ some s then
                    match st3.tokens[s]? with
                    | some sst => addErrTok ctx.docUri st3 "SEMASET Semikolon erwartet." sst
                    | none => st3
                  else st3
                | none => st3
              match sem with
              | some s => (s + 1, st4)
              | none => (i + 1, st4)

/-- REQUEST / RELEASE (lines 2572-2593). -/
def handleSemaOp (ctx : ACtx) (st : AState) (_t : Token) (i : Nat) (kw : String) :
    Nat × AState :=
  match findNextCodeIdx st.tokens i with
  | none => (i + 1, crash st)
  | some semaI =>
    match st.tokens[semaI]? with
    | none => (i + 1, crash st)
    | some semaTok =>
      let sem := findNextCodeIdx st.tokens semaI
      let nsem := findNextSemiIdx st.tokens i
      let st1 :=
        if semaTok.type = .identifier then
          match lookupSymbol st.scopeStack semaTok.value "SEMA" with
          | some (.found idx id) =>
            setTokenDef (setScopeAt st idx semaTok.value { id with used := true }) semaI id
          | some (.builtinHit _) => st
          | none =>
            addErrTok ctx.docUri st
              ("SEMA '" ++ semaTok.value ++ "' wird mit " ++ kw ++
                " verwendet, es existiert aber keine SEMA-Deklaration (DCL/SPC SEMA).") semaTok
        else st
      let st2 :=
        match sem with
        | some s =>
          if nsem ≠ some s then
            match st1.tokens[s]? with
            | some sst => addErrTok ctx.docUri st1 (kw ++ " Semikolon erwartet.") sst
            | none => st1
          else st1
        | none => st1
      match sem with
      | some s => (s + 1, st2)
      | none => (i + 1, st2)

/-- ENTER / LEAVE / RESERVE / FREE (lines 2596-2617). -/
def handleBoltOp (ctx : ACtx) (st : AState) (_t : Token) (i : Nat) (kw : String) :
    Nat × AState :=
  match findNextCodeIdx st.tokens i with
  | none => (i + 1, crash st)
  | some boltI =>
    match st.tokens[boltI]? with
    | none => (i + 1, crash st)
    | some boltTok =>
      let sem := findNextCodeIdx st.tokens boltI
      let nsem := findNextSemiIdx st.tokens i
      let st1 :=
        if boltTok.type = .identifier then
          match lookupSymbol st.scopeStack boltTok.value "BOLT" with
          | some (.found idx id) =>
            setTokenDef (setScopeAt st idx boltTok.value { id with used := true }) boltI id
          | some (.builtinHit _) => st
          | none =>
            addErrTok ctx.docUri st
              ("BOLT '" ++ boltTok.value ++ "' wird mit " ++ kw ++
                " verwendet, es existiert aber keine BOLT-Deklaration (DCL/SPC BOLT).") boltTok
        else st
      let st2 :=
        match sem with
        | some s =>
          if nsem ≠ some s then
            match st1.tokens[s]? with
            | some sst => addErrTok ctx.docUri st1 (kw ++ " Semikolon erwartet.") sst
            | none => st1
          else st1
        | none => st1
      match sem with
      | some s => (s + 1, st2)
      | none => (i + 1, st2)

/-- The plain identifier-use path (lines 2093-2106). -/
def plainIdentUse (ctx : ACtx) (st : AState) (t : Token) (i : Nat) : Nat × AState :=
  let st1 :=
    match lookupSymbol st.scopeStack t.value "" with
    | some (.builtinHit b) => setTokenBuiltin st i b
    | some (.found idx id) =>
      setTokenDef (setScopeAt st idx t.value { id with used := true }) i id
    | none => addErrTok ctx.docUri st (t.value ++ " nicht definiert.") t
  (i + 1, st1)

/-- Identifier dispatch (lines 2055-2107): label definition (stored in
    `scopeStack[1]`), call position, or plain use. -/
def handleIdentifier (ctx : ACtx) (st : AState) (t : Token) (i : Nat) :
    Nat × AState :=
  match findNextCodeIdx st.tokens i with
  | some ni =>
    match st.tokens[ni]? with
    | some nt =>
      if nt.type = .symbol ∧ nt.value = ":" then
        let isProcImpl : Bool :=
          match (findNextCodeIdx st.tokens ni).bind (fun k => st.tokens[k]?) with
          | some at2 =>
            at2.type == .keyword &&
            (at2.value == "PROC" || at2.value == "PROCEDURE" || at2.value == "TASK")
          | none => false
        if isProcImpl then (i + 1, st)
        else if 2 ≤ st.scopeStack.length then
          let id := createIdentifier t 0 false false "@LABEL" false false
          (i + 1, setScopeAt st 1 t.value id)
        else
          (i + 1, addErrTok ctx.docUri st
            ("Label " ++ t.value ++ " außerhalb von PROC/TASK.") t)
      else if nt.type = .symbol ∧ nt.value = "(" then
        let st1 :=
          match lookupSymbol st.scopeStack t.value "PROCEDURE" with
          | some (.builtinHit b) => setTokenBuiltin st i b
          | some (.found idx id) =>
            setTokenDef (setScopeAt st idx t.value { id with used := true }) i id
          | none => addErrTok ctx.docUri st (t.value ++ " nicht definiert.") t
        (ni + 1, st1)
      else plainIdentUse ctx st t i
    | none => plainIdentUse ctx st t i
  | none => plainIdentUse ctx st t i

/-- One iteration of the analyzer's keyword dispatch (the loop body,
    lines 2046-2618), given the current token; returns the next loop
    index and state. -/
def aStep (ctx : ACtx) (st : AState) (t : Token) (i : Nat) : Nat × AState :=
  if t.type = .comment ∨ t.type = .inactive ∨ t.type = .str ∨
     t.type = .bitstring ∨ t.type = .number ∨ t.type = .error ∨
     t.type = .preproc then (i + 1, st)
  else if t.type = .identifier then handleIdentifier ctx st t i
  else if t.type ≠ .keyword then (i + 1, st)
  else
    let kw := t.value
    if kw = "END" then handleEnd ctx st t i
    else if kw = "ELSE" then handleElse ctx st t i
    else if kw = "FIN" then handleFin ctx st t i
    else if kw = "MODEND" then handleModend ctx st t i
    else if kw = "DCL" ∨ kw = "DECLARE" then handleDcl ctx st t i
    else if kw = "SPC" ∨ kw = "SPECIFY" then handleSpc ctx st t i
    else if kw = "MODULE" ∨ kw = "SHELLMODULE" then handleModule ctx st t i kw
    else if kw = "IF" ∨ kw = "CASE" then handleIfCase ctx st t i kw
    else if kw = "SYSTEM" ∨ kw = "PROBLEM" then handleSystem ctx st t i kw
    else if kw = "PROC" ∨ kw = "PROCEDURE" ∨ kw = "TASK" then handleProcTask ctx st t i kw
    else if kw = "FOR" then handleFor ctx st t i
    else if kw = "REPEAT" then handleRepeat ctx st t i kw
    else if kw = "BEGIN" then handleBegin ctx st t i kw
    else if kw = "CALL" then handleCall ctx st t i kw
    else if kw = "GOTO" then handleGoto ctx st t i kw
    else
      match taskCtrlOf kw with
      | some (tm, pm) => handleTaskCtrl ctx st t i kw tm pm
      | none =>
        if kw = "SEMASET" then handleSemaset ctx st t i
        else if SEMA_OP_KEYWORDS.contains kw then handleSemaOp ctx st t i kw
        else if BOLT_OP_KEYWORDS.contains kw then handleBoltOp ctx st t i kw
        else (i + 1, st)

/-- The analyzer's forward pass (the `for` loop, line 2046): stops at
    the end of the token array, at a token beyond `stopOffset`, or at a
    crash; `fuel = tokens.length + 1` suffices because every step
    advances the index. -/
def aGo (ctx : ACtx) : Nat → Nat → AState → AState
  | 0, _, st => st
  | fuel + 1, i, st =>
    if st.crashed then st
    else
      match st.tokens[i]? with
      | none => st
      | some t =>
        let stop : Bool :=
          match ctx.stopOffset with
          | some so => decide (so < t.offset)
          | none => false
        if stop then st
        else
          let next := aStep ctx st t i
          aGo ctx fuel next.1 next.2

/-- The predefined-macro seeding (lines 994-1004). -/
def initDefines (pre : List (String × Option String)) : List (String × DefEntry) :=
  pre.foldl (fun m p =>
    match p.2 with
    | none => assocSet m p.1 ⟨none, none⟩
    | some v =>
      if v = "" then assocSet m p.1 ⟨none, none⟩
      else assocSet m p.1 ⟨some v, none⟩) []

/-- Initial shared lexer state (lines 982-1004): `defineStack = [true]`,
    one entry on the folding companion stack, section `problem`. -/
def shInit (settings : Settings) : LexSh :=
  { defines := initDefines settings.preDefines, defineStack := [true],
    includeStack := [], preprocCount := 1, sect := "problem", diags := [],
    crashed := false }

/-- Gas for the lexer runs below; far beyond the character counts of
    the analyzed texts (the include cap of 100 is enforced by
    dirDispatch, not by gas). -/
def lexGas : Nat := 100000

/-- The lexer run `analyze` starts with (line 2046's input). -/
def aLexed (fs : FileSys) (settings : Settings) (docUri text : String) :
    LexLoc × LexSh :=
  tokenizeRun fs settings docUri docUri text true lexGas (shInit settings)

/-- The analyzer context for an `analyze` run. -/
def aCtx0 (fs : FileSys) (settings : Settings) (docUri text : String)
    (stopOffset : Option Nat) : ACtx :=
  { docUri := docUri, stopOffset := stopOffset,
    lineEnds := (aLexed fs settings docUri text).1.lineEnds }

/-- The analyzer state at the top of the forward pass (lines 982-987):
    empty block stack, the global scope alone on the scope stack. -/
def aSt0 (fs : FileSys) (settings : Settings) (docUri text : String) : AState :=
  let lexed := aLexed fs settings docUri text
  { tokens := lexed.1.tokens, blockStack := [], scopeStack := [[]],
    diags := lexed.2.diags, gotoList := [], loopVar := false,
    modendFound := false, crashed := lexed.2.crashed }

/-- One open-block warning (lines 2627-2639): pushed directly onto the
    diagnostics array, without going through addDiagnostic and its
    same-file filter. -/
def openBlockWarn (acc : AState) (fr : Frame) : AState :=
  { acc with diags := acc.diags ++
      [⟨.warning,
        "Block '" ++ fr.keyword ++ "' wird nicht geschlossen. Erwartet " ++
          blockEndOf fr.keyword ++ ".",
        fr.token.uri, fr.token.line, fr.token.column, fr.token.length,
        false⟩] }

/-- The full `analyze(uri, text, settings, options)` run, as the final
    analyzer state: lexing, the forward pass, the end-of-file unused
    sweep when no MODEND was seen, and the open-block warnings. -/
def analyzeState (fs : FileSys) (settings : Settings) (docUri text : String)
    (stopOffset : Option Nat) : AState :=
  let st0 := aSt0 fs settings docUri text
  let st := aGo (aCtx0 fs settings docUri text stopOffset) (st0.tokens.length + 1) 0 st0
  if st.crashed then st
  else
    let st1 := if ¬ st.modendFound then markUnusedVariables docUri st else st
    st1.blockStack.foldl openBlockWarn st1

/-- The value `analyze` returns to its callers ({ tokens, diagnostics,
    scopeStack }, lines 2641-2646; foldingRanges elided); `crashed`
    records that the JS run would have thrown instead of returning. -/
structure AnalyzeResult where
  tokens : List Token
  diagnostics : List Diag
  scopeStack : List Scope
  crashed : Bool
  deriving Repr

def analyze (fs : FileSys) (settings : Settings) (docUri text : String)
    (stopOffset : Option Nat) : AnalyzeResult :=
  let st := analyzeState fs settings docUri text stopOffset
  { tokens := st.tokens, diagnostics := st.diags, scopeStack := st.scopeStack,
    crashed := st.crashed }

-- ---------------------------------------------------------------
-- Hover (connection.onHover, lines 2704-2774)
-- ---------------------------------------------------------------

/-- findTokenAt (lines 902-911): first token on the line covering the
    character (inclusive at both ends). -/
def findTokenAt (toks : List Token) (uri : String) (line char : Nat) :
    Option Token :=
  toks.find? (fun t =>
    t.line = line ∧ t.uri = uri ∧ t.column ≤ char ∧ char ≤ t.column + t.length)

/-- The four hover payload shapes (markdown string formatting is out of
    the analyzed core, spec section 1). -/
inductive HoverResp where
  | defineResp (value defineText : String)
  | definitionResp (ty : TokType) (value : String) (offset defOffset : Nat) (td : TypeDesc)
  | builtinResp (ty : TokType) (value : String) (offset : Nat) (b : BuiltinInfo)
  | genericResp (ty : TokType) (value : String) (offset : Nat)
  deriving DecidableEq, Repr

/-- The hover handler on a cached analysis (lines 2704-2774).  The
    `if/else` chain marked `Test----` (lines 2716-2747) returns in every
    branch, so the subsequent no-hover rule for comments, inactive code
    and literals (lines 2750-2753) and the keyword/identifier texts
    (lines 2755-2771) are unreachable and do not appear below. -/
def onHoverModel (analysis : AnalyzeResult) (uri : String) (line char : Nat) :
    Option HoverResp :=
  match findTokenAt analysis.tokens uri line char with
  | none => none
  | some t =>
    match t.define with
    | some d => some (.defineResp t.value d)
    | none =>
      match t.definition with
      | some dr => some (.definitionResp t.type t.value t.offset dr.nameOffset dr.td)
      | none =>
        match t.builtin with
        | some b => some (.builtinResp t.type t.value t.offset b)
        | none => some (.genericResp t.type t.value t.offset)

-- ---------------------------------------------------------------
-- Concrete runs used by the claims
-- ---------------------------------------------------------------

/-- Settings for the runs: file-relative include resolution (the
    default, line 239) and no predefined macros. -/
def demoSettings : Settings := { workingDirMode := "file", preDefines := [] }

def demoUri : String := "file:///w/d.p"

/-- The C4 scenario source, one statement per line. -/
def txtC4 : String := "MODULE M;\nPROC P: PROC;\nDCL X FIXED;\nX:=1;\nEND;\nMODEND;\n"

/-- The C6 scenario source. -/
def txtC6 : String := "PROC Q: PROC;\nGOTO L1;\nEND;\n"

/-- A PROC implementation header with no enclosing MODULE (C7). -/
def txtC7 : String := "Q: PROC;\n"

/-- Two IF openers (C2): each pushes a block frame and no scope. -/
def txtC2 : String := "IF\nIF\n"

/-- A document whose single include opens a block it never closes (C9). -/
def fsC9 : FileSys := [("/w/inc.p", "BEGIN;\n")]

def mainUri9 : String := "file:///w/main.p"

def txtC9 : String := "#include \"inc.p\"\n"

/-- A file that includes itself (C8). -/
def fsC8 : FileSys := [("/w/a.p", "#include \"a.p\"\nx\n")]

def uriC8 : String := "file:///w/a.p"

def txtC8 : String := "#include \"a.p\"\nx\n"

/-- A document that is one comment (C5). -/
def txtC5 : String := "! hallo\n"

def isErrDiag (d : Diag) : Bool := d.severity = .error

/-- `DirAction.inc` recognizer, for stating that the include cap never
    requests a nested lex. -/
def DirAction.isInc : DirAction → Bool
  | .inc _ _ _ _ => true
  | _ => false

/-- The permitted-opener table of the four closing keywords (lines
    2117, 2170, 2192, 2214). -/
def closerOpeners (kw : String) : List String :=
  if kw = "END" then endOpenersEND
  else if kw = "ELSE" then endOpenersELSE
  else if kw = "FIN" then endOpenersFIN
  else endOpenersMODEND

/-- The structural error message of each closing keyword. -/
def closerMsg (kw : String) : String :=
  if kw = "END" then "Unerwartetes END ohne passenden Block (TASK/PROC/REPEAT/BEGIN)."
  else if kw = "ELSE" then "Unerwartetes ELSE ohne passenden Block (IF)."
  else if kw = "FIN" then "Unerwartetes FIN ohne passenden Block (IF/CASE)."
  else "Unerwartetes MODEND ohne passenden Block (MODULE/SHELLMODULE)."

-- Concrete tokens and states used to instantiate the quantified
-- theorems below.

def tokC1 : Token :=
  { type := .keyword, value := "END", uri := demoUri, line := 3, column := 0,
    offset := 30, length := 3 }

/-- A closing-keyword token that an `#include` carried in from another
    file: its uri is the included file's, not the analyzed document's. -/
def tokF : Token :=
  { type := .keyword, value := "END", uri := "file:///w/inc.p", line := 0,
    column := 0, offset := 0, length := 3 }

def ctxW : ACtx := { docUri := demoUri, stopOffset := none, lineEnds := [] }

def stW1 : AState :=
  { tokens := [tokC1], blockStack := [], scopeStack := [[]], diags := [],
    gotoList := [], loopVar := false, modendFound := false, crashed := false }

def tok0 : Token :=
  { type := .identifier, value := "A", uri := demoUri, line := 9, column := 9,
    offset := 99, length := 1 }

def tokQ : Token :=
  { type := .identifier, value := "Q", uri := demoUri, line := 0, column := 0,
    offset := 0, length := 1 }

def tokColon : Token :=
  { type := .symbol, value := ":", uri := demoUri, line := 0, column := 1,
    offset := 1, length := 1 }

def tokProcKw : Token :=
  { type := .keyword, value := "PROC", uri := demoUri, line := 0, column := 3,
    offset := 3, length := 4 }

/-- A state in a nested scope (two open scopes), about to read the
    header `Q: PROC`. -/
def stBadC7 : AState :=
  { tokens := [tokQ, tokColon, tokProcKw], blockStack := [],
    scopeStack := [[], []], diags := [], gotoList := [], loopVar := false,
    modendFound := false, crashed := false }

/-- A lexer state whose include stack already holds 100 files. -/
def shCap : LexSh :=
  { shInit demoSettings with includeStack := List.replicate 100 "/w/a.p" }

-- ---------------------------------------------------------------
-- Stack bookkeeping lemmas
-- ---------------------------------------------------------------

/-- The block keywords whose handlers push a scope along with the frame
    (PROC/PROCEDURE/TASK headers, BEGIN, REPEAT and the FOR-REPEAT
    form) — the same keywords END may close. -/
def scFrames (bs : List Frame) : Nat :=
  (bs.filter (fun f => endOpenersEND.contains f.keyword)).length

/-- The length relation the analyzer actually maintains between the two
    stacks. -/
def stInv (st : AState) : Prop :=
  st.scopeStack.length = 1 + scFrames st.blockStack

theorem scFrames_append (l1 l2 : List Frame) :
    scFrames (l1 ++ l2) = scFrames l1 + scFrames l2 := by
  simp [scFrames, List.filter_append]

theorem scFrames_concat (bs : List Frame) (fr : Frame) :
    scFrames (bs ++ [fr]) =
      scFrames bs + (if endOpenersEND.contains fr.keyword then 1 else 0) := by
  rw [scFrames_append]
  by_cases h : fr.keyword ∈ endOpenersEND <;>
    simp [scFrames, List.filter, List.contains, List.elem_eq_mem, h]

theorem scFrames_getLast (bs : List Frame) (fr : Frame)
    (h : bs.getLast? = some fr) :
    scFrames bs =
      scFrames bs.dropLast + (if endOpenersEND.contains fr.keyword then 1 else 0) := by
  have hl : bs.dropLast ++ [fr] = bs :=
    List.dropLast_append_getLast? fr (by simpa using h)
  conv_lhs => rw [← hl]
  rw [scFrames_concat]

@[simp] theorem addDiagA_scopeStack (d : String) (st : AState) (sev : Severity)
    (m u : String) (l c n : Nat) (b : Bool) :
    (addDiagA d st sev m u l c n b).scopeStack = st.scopeStack := by
  unfold addDiagA; split <;> rfl

@[simp] theorem addDiagA_blockStack (d : String) (st : AState) (sev : Severity)
    (m u : String) (l c n : Nat) (b : Bool) :
    (addDiagA d st sev m u l c n b).blockStack = st.blockStack := by
  unfold addDiagA; split <;> rfl

@[simp] theorem addErrTok_scopeStack (d : String) (st : AState) (m : String) (t : Token) :
    (addErrTok d st m t).scopeStack = st.scopeStack := by
  simp [addErrTok]

@[simp] theorem addErrTok_blockStack (d : String) (st : AState) (m : String) (t : Token) :
    (addErrTok d st m t).blockStack = st.blockStack := by
  simp [addErrTok]

@[simp] theorem addWarnTok_scopeStack (d : String) (st : AState) (m : String) (t : Token) :
    (addWarnTok d st m t).scopeStack = st.scopeStack := by
  simp [addWarnTok]

@[simp] theorem addWarnTok_blockStack (d : String) (st : AState) (m : String) (t : Token) :
    (addWarnTok d st m t).blockStack = st.blockStack := by
  simp [addWarnTok]

@[simp] theorem addHintTok_scopeStack (d : String) (st : AState) (m : String) (t : Token) :
    (addHintTok d st m t).scopeStack = st.scopeStack := by
  simp [addHintTok]

@[simp] theorem addHintTok_blockStack (d : String) (st : AState) (m : String) (t : Token) :
    (addHintTok d st m t).blockStack = st.blockStack := by
  simp [addHintTok]

@[simp] theorem setScopeAt_scopeLen (st : AState) (idx : Nat) (nm : String)
    (id : Identifier) :
    (setScopeAt st idx nm id).scopeStack.length = st.scopeStack.length := by
  unfold setScopeAt; split <;> simp

@[simp] theorem setScopeAt_blockStack (st : AState) (idx : Nat) (nm : String)
    (id : Identifier) :
    (setScopeAt st idx nm id).blockStack = st.blockStack := by
  unfold setScopeAt; split <;> rfl

@[simp] theorem setScopeTop_scopeLen (st : AState) (nm : String) (id : Identifier) :
    (setScopeTop st nm id).scopeStack.length = st.scopeStack.length := by
  simp [setScopeTop]

@[simp] theorem setScopeTop_blockStack (st : AState) (nm : String) (id : Identifier) :
    (setScopeTop st nm id).blockStack = st.blockStack := by
  simp [setScopeTop]

@[simp] theorem setTokenDef_scopeStack (st : AState) (i : Nat) (id : Identifier) :
    (setTokenDef st i id).scopeStack = st.scopeStack := by
  unfold setTokenDef; split <;> rfl

@[simp] theorem setTokenDef_blockStack (st : AState) (i : Nat) (id : Identifier) :
    (setTokenDef st i id).blockStack = st.blockStack := by
  unfold setTokenDef; split <;> rfl

@[simp] theorem setTokenBuiltin_scopeStack (st : AState) (i : Nat) (b : BuiltinInfo) :
    (setTokenBuiltin st i b).scopeStack = st.scopeStack := by
  unfold setTokenBuiltin; split <;> rfl

@[simp] theorem setTokenBuiltin_blockStack (st : AState) (i : Nat) (b : BuiltinInfo) :
    (setTokenBuiltin st i b).blockStack = st.blockStack := by
  unfold setTokenBuiltin; split <;> rfl

@[simp] theorem crash_scopeStack (st : AState) : (crash st).scopeStack = st.scopeStack := rfl

@[simp] theorem crash_blockStack (st : AState) : (crash st).blockStack = st.blockStack := rfl

@[simp] theorem pushFrame_scopeStack (st : AState) (kw : String) (t : Token) :
    (pushFrame st kw t).scopeStack = st.scopeStack := rfl

@[simp] theorem pushFrame_blockStack (st : AState) (kw : String) (t : Token) :
    (pushFrame st kw t).blockStack = st.blockStack ++ [⟨kw, t⟩] := rfl

@[simp] theorem popFrame_scopeStack (st : AState) :
    (popFrame st).scopeStack = st.scopeStack := rfl

@[simp] theorem popFrame_blockStack (st : AState) :
    (popFrame st).blockStack = st.blockStack.dropLast := rfl

@[simp] theorem pushScope_scopeLen (st : AState) :
    (pushScope st).scopeStack.length = st.scopeStack.length + 1 := by
  simp [pushScope]

@[simp] theorem pushScope_blockStack (st : AState) :
    (pushScope st).blockStack = st.blockStack := rfl

@[simp] theorem popScopeIfGt1_blockStack (st : AState) :
    (popScopeIfGt1 st).blockStack = st.blockStack := by
  unfold popScopeIfGt1; split <;> rfl

theorem popScopeIfGt1_scopeLen (st : AState) :
    (popScopeIfGt1 st).scopeStack.length =
      if 1 < st.scopeStack.length then st.scopeStack.length - 1
      else st.scopeStack.length := by
  unfold popScopeIfGt1; split <;> simp_all

/-- Folding a stack-length-preserving, block-stack-preserving update
    preserves both. -/
theorem foldl_stackLen {α : Type} (f : AState → α → AState)
    (hf : ∀ st a, (f st a).scopeStack.length = st.scopeStack.length ∧
                  (f st a).blockStack = st.blockStack) :
    ∀ (l : List α) (st : AState),
      (l.foldl f st).scopeStack.length = st.scopeStack.length ∧
      (l.foldl f st).blockStack = st.blockStack := by
  intro l
  induction l with
  | nil => intro st; exact ⟨rfl, rfl⟩
  | cons a tl ih =>
    intro st
    have h1 := hf st a
    have h2 := ih (f st a)
    exact ⟨h2.1.trans h1.1, h2.2.trans h1.2⟩

theorem markUnused_stacks (d : String) (st : AState) :
    (markUnusedVariables d st).scopeStack.length = st.scopeStack.length ∧
    (markUnusedVariables d st).blockStack = st.blockStack := by
  unfold markUnusedVariables
  cases h : st.scopeStack.getLast? with
  | none => exact ⟨rfl, rfl⟩
  | some sc =>
    refine foldl_stackLen _ ?_ sc st
    intro st' p
    split <;> simp

theorem foldl_gotoUndefErr_stacks (d : String) (l : List Token) (s : AState) :
    ((l.foldl (gotoUndefErr d) s).scopeStack.length = s.scopeStack.length) ∧
    ((l.foldl (gotoUndefErr d) s).blockStack = s.blockStack) := by
  refine foldl_stackLen _ ?_ l s
  intro s' a
  unfold gotoUndefErr
  split <;> simp

theorem foldl_gotoMarkUsed_stacks (l : List Token) (s : AState) :
    ((l.foldl gotoMarkUsed s).scopeStack.length = s.scopeStack.length) ∧
    ((l.foldl gotoMarkUsed s).blockStack = s.blockStack) := by
  refine foldl_stackLen _ ?_ l s
  intro s' a
  unfold gotoMarkUsed
  split <;> simp

theorem foldl_labelUnusedWarn_stacks (d : String) (l : List (String × Identifier))
    (s : AState) :
    ((l.foldl (labelUnusedWarn d) s).scopeStack.length = s.scopeStack.length) ∧
    ((l.foldl (labelUnusedWarn d) s).blockStack = s.blockStack) := by
  refine foldl_stackLen _ ?_ l s
  intro s' a
  unfold labelUnusedWarn
  split <;> simp

theorem foldl_dclInsert_stacks (d : String) (l : List Identifier) (s : AState) :
    ((l.foldl (dclInsert d) s).scopeStack.length = s.scopeStack.length) ∧
    ((l.foldl (dclInsert d) s).blockStack = s.blockStack) := by
  refine foldl_stackLen _ ?_ l s
  intro s' a
  unfold dclInsert
  dsimp only
  split <;> simp

theorem foldl_spcInsert_stacks (l : List Identifier) (s : AState) :
    ((l.foldl spcInsert s).scopeStack.length = s.scopeStack.length) ∧
    ((l.foldl spcInsert s).blockStack = s.blockStack) := by
  refine foldl_stackLen _ ?_ l s
  intro s' a
  unfold spcInsert
  simp

theorem markGlobalProc_stacks (st : AState) (nm : String) :
    ((markGlobalProc st nm).scopeStack.length = st.scopeStack.length) ∧
    ((markGlobalProc st nm).blockStack = st.blockStack) := by
  unfold markGlobalProc
  split
  · split
    · exact ⟨setScopeAt_scopeLen _ _ _ _, setScopeAt_blockStack _ _ _ _⟩
    · exact ⟨rfl, rfl⟩
  · exact ⟨rfl, rfl⟩

@[simp] theorem markUnused_scopeLen (d : String) (st : AState) :
    (markUnusedVariables d st).scopeStack.length = st.scopeStack.length :=
  (markUnused_stacks d st).1

@[simp] theorem markUnused_blockStack (d : String) (st : AState) :
    (markUnusedVariables d st).blockStack = st.blockStack :=
  (markUnused_stacks d st).2

@[simp] theorem foldl_gotoUndefErr_scopeLen (d : String) (l : List Token) (s : AState) :
    (l.foldl (gotoUndefErr d) s).scopeStack.length = s.scopeStack.length :=
  (foldl_gotoUndefErr_stacks d l s).1

@[simp] theorem foldl_gotoUndefErr_blockStack (d : String) (l : List Token) (s : AState) :
    (l.foldl (gotoUndefErr d) s).blockStack = s.blockStack :=
  (foldl_gotoUndefErr_stacks d l s).2

@[simp] theorem foldl_gotoMarkUsed_scopeLen (l : List Token) (s : AState) :
    (l.foldl gotoMarkUsed s).scopeStack.length = s.scopeStack.length :=
  (foldl_gotoMarkUsed_stacks l s).1

@[simp] theorem foldl_gotoMarkUsed_blockStack (l : List Token) (s : AState) :
    (l.foldl gotoMarkUsed s).blockStack = s.blockStack :=
  (foldl_gotoMarkUsed_stacks l s).2

@[simp] theorem foldl_labelUnusedWarn_scopeLen (d : String)
    (l : List (String × Identifier)) (s : AState) :
    (l.foldl (labelUnusedWarn d) s).scopeStack.length = s.scopeStack.length :=
  (foldl_labelUnusedWarn_stacks d l s).1

@[simp] theorem foldl_labelUnusedWarn_blockStack (d : String)
    (l : List (String × Identifier)) (s : AState) :
    (l.foldl (labelUnusedWarn d) s).blockStack = s.blockStack :=
  (foldl_labelUnusedWarn_stacks d l s).2

@[simp] theorem foldl_dclInsert_scopeLen (d : String) (l : List Identifier) (s : AState) :
    (l.foldl (dclInsert d) s).scopeStack.length = s.scopeStack.length :=
  (foldl_dclInsert_stacks d l s).1

@[simp] theorem foldl_dclInsert_blockStack (d : String) (l : List Identifier) (s : AState) :
    (l.foldl (dclInsert d) s).blockStack = s.blockStack :=
  (foldl_dclInsert_stacks d l s).2

@[simp] theorem foldl_spcInsert_scopeLen (l : List Identifier) (s : AState) :
    (l.foldl spcInsert s).scopeStack.length = s.scopeStack.length :=
  (foldl_spcInsert_stacks l s).1

@[simp] theorem foldl_spcInsert_blockStack (l : List Identifier) (s : AState) :
    (l.foldl spcInsert s).blockStack = s.blockStack :=
  (foldl_spcInsert_stacks l s).2

@[simp] theorem markGlobalProc_scopeLen (st : AState) (nm : String) :
    (markGlobalProc st nm).scopeStack.length = st.scopeStack.length :=
  (markGlobalProc_stacks st nm).1

@[simp] theorem markGlobalProc_blockStack (st : AState) (nm : String) :
    (markGlobalProc st nm).blockStack = st.blockStack :=
  (markGlobalProc_stacks st nm).2

-- Handlers that touch neither stack's shape: the scope stack keeps its
-- length, the block stack is untouched.

theorem plainIdentUse_stacks (ctx : ACtx) (st : AState) (t : Token) (i : Nat) :
    ((plainIdentUse ctx st t i).2.scopeStack.length = st.scopeStack.length) ∧
    ((plainIdentUse ctx st t i).2.blockStack = st.blockStack) := by
  unfold plainIdentUse
  dsimp only
  split <;> simp

theorem handleIdentifier_stacks (ctx : ACtx) (st : AState) (t : Token) (i : Nat) :
    ((handleIdentifier ctx st t i).2.scopeStack.length = st.scopeStack.length) ∧
    ((handleIdentifier ctx st t i).2.blockStack = st.blockStack) := by
  unfold handleIdentifier
  dsimp only
  repeat' split
  all_goals first
    | exact plainIdentUse_stacks ctx st t i
    | simp

theorem handleDcl_stacks (ctx : ACtx) (st : AState) (t : Token) (i : Nat) :
    ((handleDcl ctx st t i).2.scopeStack.length = st.scopeStack.length) ∧
    ((handleDcl ctx st t i).2.blockStack = st.blockStack) := by
  unfold handleDcl
  dsimp only
  repeat' split
  all_goals simp

theorem handleSpc_stacks (ctx : ACtx) (st : AState) (t : Token) (i : Nat) :
    ((handleSpc ctx st t i).2.scopeStack.length = st.scopeStack.length) ∧
    ((handleSpc ctx st t i).2.blockStack = st.blockStack) := by
  unfold handleSpc
  dsimp only
  repeat' split
  all_goals simp

theorem handleSystem_stacks (ctx : ACtx) (st : AState) (t : Token) (i : Nat)
    (kw : String) :
    ((handleSystem ctx st t i kw).2.scopeStack.length = st.scopeStack.length) ∧
    ((handleSystem ctx st t i kw).2.blockStack = st.blockStack) := by
  unfold handleSystem
  dsimp only
  repeat' split
  all_goals simp

theorem handleCall_stacks (ctx : ACtx) (st : AState) (t : Token) (i : Nat)
    (kw : String) :
    ((handleCall ctx st t i kw).2.scopeStack.length = st.scopeStack.length) ∧
    ((handleCall ctx st t i kw).2.blockStack = st.blockStack) := by
  unfold handleCall
  dsimp only
  repeat' split
  all_goals simp

theorem handleGoto_stacks (ctx : ACtx) (st : AState) (t : Token) (i : Nat)
    (kw : String) :
    ((handleGoto ctx st t i kw).2.scopeStack.length = st.scopeStack.length) ∧
    ((handleGoto ctx st t i kw).2.blockStack = st.blockStack) := by
  unfold handleGoto
  dsimp only
  repeat' split
  all_goals simp

theorem taskCtrlPhase1_stacks (ctx : ACtx) (st : AState) (i : Nat)
    (kw : String) (tm : OpMode) :
    ((taskCtrlPhase1 ctx st i kw tm).1.scopeStack.length = st.scopeStack.length) ∧
    ((taskCtrlPhase1 ctx st i kw tm).1.blockStack = st.blockStack) := by
  unfold taskCtrlPhase1
  dsimp only
  repeat' split
  all_goals simp

theorem taskCtrlPhase2_stacks (ctx : ACtx) (st1 : AState) (iv1 : Nat)
    (n1 : Option Nat) (kw : String) (pm : OpMode) :
    ((taskCtrlPhase2 ctx st1 iv1 n1 kw pm).1.scopeStack.length = st1.scopeStack.length) ∧
    ((taskCtrlPhase2 ctx st1 iv1 n1 kw pm).1.blockStack = st1.blockStack) := by
  unfold taskCtrlPhase2
  dsimp only
  repeat' split
  all_goals simp

theorem handleTaskCtrl_stacks (ctx : ACtx) (st : AState) (t : Token) (i : Nat)
    (kw : String) (tm pm : OpMode) :
    ((handleTaskCtrl ctx st t i kw tm pm).2.scopeStack.length = st.scopeStack.length) ∧
    ((handleTaskCtrl ctx st t i kw tm pm).2.blockStack = st.blockStack) := by
  have h1 := taskCtrlPhase1_stacks ctx st i kw tm
  unfold handleTaskCtrl
  rcases hp1 : taskCtrlPhase1 ctx st i kw tm with ⟨st1, iv1, n1, crashed1⟩
  rw [hp1] at h1
  dsimp only at h1 ⊢
  have h2 := taskCtrlPhase2_stacks ctx st1 iv1 n1 kw pm
  rcases hp2 : taskCtrlPhase2 ctx st1 iv1 n1 kw pm with ⟨st2, iv2, n2, crashed2⟩
  rw [hp2] at h2
  dsimp only at h2 ⊢
  repeat' split
  all_goals simp_all

theorem handleSemaset_stacks (ctx : ACtx) (st : AState) (t : Token) (i : Nat) :
    ((handleSemaset ctx st t i).2.scopeStack.length = st.scopeStack.length) ∧
    ((handleSemaset ctx st t i).2.blockStack = st.blockStack) := by
  unfold handleSemaset
  dsimp only
  repeat' split
  all_goals simp

theorem handleSemaOp_stacks (ctx : ACtx) (st : AState) (t : Token) (i : Nat)
    (kw : String) :
    ((handleSemaOp ctx st t i kw).2.scopeStack.length = st.scopeStack.length) ∧
    ((handleSemaOp ctx st t i kw).2.blockStack = st.blockStack) := by
  unfold handleSemaOp
  dsimp only
  repeat' split
  all_goals simp

theorem handleBoltOp_stacks (ctx : ACtx) (st : AState) (t : Token) (i : Nat)
    (kw : String) :
    ((handleBoltOp ctx st t i kw).2.scopeStack.length = st.scopeStack.length) ∧
    ((handleBoltOp ctx st t i kw).2.blockStack = st.blockStack) := by
  unfold handleBoltOp
  dsimp only
  repeat' split
  all_goals simp

theorem procParams_stacks (ctx : ACtx) (st : AState) (t : Token) (i : Nat)
    (nm : String) :
    ((procParams ctx st t i nm).2.scopeStack.length = st.scopeStack.length) ∧
    ((procParams ctx st t i nm).2.blockStack = st.blockStack) := by
  unfold procParams
  dsimp only
  repeat' split
  all_goals simp

-- The invariant is preserved by every handler, hence by the whole
-- forward pass.

theorem stInv_of_stacks {st st' : AState}
    (hl : st'.scopeStack.length = st.scopeStack.length)
    (hb : st'.blockStack = st.blockStack) (h : stInv st) : stInv st' := by
  unfold stInv at h ⊢
  rw [hl, hb]
  exact h

theorem contains_true_mem {l : List String} {a : String}
    (h : l.contains a = true) : a ∈ l := by
  simpa [List.contains, List.elem_eq_mem] using h

theorem scFrames_concat_true (bs : List Frame) (fr : Frame)
    (h : endOpenersEND.contains fr.keyword = true) :
    scFrames (bs ++ [fr]) = scFrames bs + 1 := by
  rw [scFrames_concat, if_pos h]

theorem scFrames_concat_false (bs : List Frame) (fr : Frame)
    (h : endOpenersEND.contains fr.keyword = false) :
    scFrames (bs ++ [fr]) = scFrames bs := by
  rw [scFrames_concat, if_neg (by rw [h]; simp)]
  omega

theorem scFrames_getLast_true (bs : List Frame) (fr : Frame)
    (hl : bs.getLast? = some fr)
    (h : endOpenersEND.contains fr.keyword = true) :
    scFrames bs = scFrames bs.dropLast + 1 := by
  rw [scFrames_getLast bs fr hl, if_pos h]

theorem scFrames_getLast_false (bs : List Frame) (fr : Frame)
    (hl : bs.getLast? = some fr)
    (h : endOpenersEND.contains fr.keyword = false) :
    scFrames bs = scFrames bs.dropLast := by
  rw [scFrames_getLast bs fr hl, if_neg (by rw [h]; simp)]
  omega

theorem elseNotEnd {k : String} (h : endOpenersELSE.contains k = true) :
    endOpenersEND.contains k = false := by
  have hm := contains_true_mem h
  simp only [endOpenersELSE, List.mem_singleton] at hm
  rw [hm]
  decide

theorem finNotEnd {k : String} (h : endOpenersFIN.contains k = true) :
    endOpenersEND.contains k = false := by
  have hm := contains_true_mem h
  simp only [endOpenersFIN, List.mem_cons, List.mem_singleton,
    List.not_mem_nil, or_false] at hm
  rcases hm with h1 | h1 | h1 <;> rw [h1] <;> decide

theorem modendNotEnd {k : String} (h : endOpenersMODEND.contains k = true) :
    endOpenersEND.contains k = false := by
  have hm := contains_true_mem h
  simp only [endOpenersMODEND, List.mem_cons, List.mem_singleton,
    List.not_mem_nil, or_false] at hm
  rcases hm with h1 | h1 <;> rw [h1] <;> decide

theorem handleEnd_inv (ctx : ACtx) (st : AState) (t : Token) (i : Nat)
    (h : stInv st) : stInv (handleEnd ctx st t i).2 := by
  unfold handleEnd
  dsimp only
  cases hlast : st.blockStack.getLast? with
  | none =>
    exact stInv_of_stacks (by simp) (by simp) h
  | some fr =>
    by_cases hfr : endOpenersEND.contains fr.keyword
    · simp only [hfr, Bool.not_true, if_neg (by simp : ¬ (false = true))]
      have hlen2 : st.scopeStack.length = 2 + scFrames st.blockStack.dropLast := by
        unfold stInv at h
        rw [scFrames_getLast_true st.blockStack fr hlast hfr] at h
        omega
      have hX : ∀ st2 : AState, st2.scopeStack.length = st.scopeStack.length →
          st2.blockStack = st.blockStack.dropLast →
          stInv (popScopeIfGt1 (markUnusedVariables ctx.docUri st2)) := by
        intro st2 h2l h2b
        unfold stInv
        rw [popScopeIfGt1_blockStack, markUnused_blockStack, h2b,
            popScopeIfGt1_scopeLen, markUnused_scopeLen, h2l,
            if_pos (by omega)]
        omega
      split
      · exact hX _ (by (repeat' split) <;> simp) (by (repeat' split) <;> simp)
      · exact hX _ (by (repeat' split) <;> simp) (by (repeat' split) <;> simp)
    · rw [Bool.not_eq_true] at hfr
      simp only [hfr, Bool.not_false, if_pos rfl]
      exact stInv_of_stacks (by simp) (by simp) h

theorem handleElse_inv (ctx : ACtx) (st : AState) (t : Token) (i : Nat)
    (h : stInv st) : stInv (handleElse ctx st t i).2 := by
  unfold handleElse
  dsimp only
  cases hlast : st.blockStack.getLast? with
  | none =>
    exact stInv_of_stacks (by simp) (by simp) h
  | some fr =>
    by_cases hfr : endOpenersELSE.contains fr.keyword
    · simp only [hfr, Bool.not_true, if_neg (by simp : ¬ (false = true))]
      have hsc := scFrames_getLast_false st.blockStack fr hlast (elseNotEnd hfr)
      unfold stInv at h
      split
      · unfold stInv
        dsimp only
        simp only [crash_scopeStack, crash_blockStack, popFrame_scopeStack,
          popFrame_blockStack]
        omega
      · unfold stInv
        dsimp only
        rw [pushFrame_scopeStack, popFrame_scopeStack, pushFrame_blockStack,
            popFrame_blockStack,
            scFrames_concat_false st.blockStack.dropLast ⟨"ELSE", t⟩
              (show endOpenersEND.contains "ELSE" = false by decide)]
        omega
    · rw [Bool.not_eq_true] at hfr
      simp only [hfr, Bool.not_false, if_pos rfl]
      exact stInv_of_stacks (by simp) (by simp) h

theorem handleFin_inv (ctx : ACtx) (st : AState) (t : Token) (i : Nat)
    (h : stInv st) : stInv (handleFin ctx st t i).2 := by
  unfold handleFin
  dsimp only
  cases hlast : st.blockStack.getLast? with
  | none =>
    exact stInv_of_stacks (by simp) (by simp) h
  | some fr =>
    by_cases hfr : endOpenersFIN.contains fr.keyword
    · simp only [hfr, Bool.not_true, if_neg (by simp : ¬ (false = true))]
      have hsc := scFrames_getLast_false st.blockStack fr hlast (finNotEnd hfr)
      unfold stInv at h
      split
      all_goals
        unfold stInv
        dsimp only
        simp only [crash_scopeStack, crash_blockStack, popFrame_scopeStack,
          popFrame_blockStack]
        omega
    · rw [Bool.not_eq_true] at hfr
      simp only [hfr, Bool.not_false, if_pos rfl]
      exact stInv_of_stacks (by simp) (by simp) h

theorem handleModend_inv (ctx : ACtx) (st : AState) (t : Token) (i : Nat)
    (h : stInv st) : stInv (handleModend ctx st t i).2 := by
  unfold handleModend
  dsimp only
  split
  · exact stInv_of_stacks (by simp) (by simp) h
  · rename_i hok
    simp only [Bool.not_eq_true, Bool.not_eq_false'] at hok
    rw [Bool.and_eq_true] at hok
    obtain ⟨hlen1, hM⟩ := hok
    have hlen1' : st.blockStack.length = 1 := by simpa using hlen1
    cases hlast : st.blockStack.getLast? with
    | none =>
      rw [hlast] at hM
      exact absurd hM (by simp)
    | some fr =>
      rw [hlast] at hM
      have hfrEnd : endOpenersEND.contains fr.keyword = false := modendNotEnd hM
      have hdropnil : st.blockStack.dropLast = [] := by
        apply List.eq_nil_of_length_eq_zero
        simp [hlen1']
      have hlen : st.scopeStack.length = 1 := by
        unfold stInv at h
        rw [scFrames_getLast_false st.blockStack fr hlast hfrEnd, hdropnil] at h
        simpa [scFrames] using h
      split
      all_goals
        unfold stInv
        dsimp only
        simp only [crash_scopeStack, crash_blockStack, popScopeIfGt1_blockStack,
          markUnused_blockStack, popFrame_blockStack, popScopeIfGt1_scopeLen,
          markUnused_scopeLen, popFrame_scopeStack]
        rw [hlen, hdropnil]
        simp [scFrames]

theorem handleModule_inv (ctx : ACtx) (st : AState) (t : Token) (i : Nat)
    (kw : String) (hkw : endOpenersEND.contains kw = false)
    (h : stInv st) : stInv (handleModule ctx st t i kw).2 := by
  unfold handleModule
  dsimp only
  have key : ∀ st1 : AState, st1.scopeStack.length = st.scopeStack.length →
      st1.blockStack = st.blockStack → stInv (pushFrame st1 kw t) := by
    intro st1 h1l h1b
    unfold stInv at h ⊢
    rw [pushFrame_scopeStack, pushFrame_blockStack, h1l, h1b,
        scFrames_concat_false _ _ hkw]
    exact h
  repeat' split
  all_goals exact key _ (by simp) (by simp)

theorem handleIfCase_inv (ctx : ACtx) (st : AState) (t : Token) (i : Nat)
    (kw : String) (hkw : endOpenersEND.contains kw = false)
    (h : stInv st) : stInv (handleIfCase ctx st t i kw).2 := by
  unfold handleIfCase
  dsimp only
  unfold stInv at h ⊢
  rw [pushFrame_scopeStack, pushFrame_blockStack, scFrames_concat_false _ _ hkw]
  exact h

theorem procParams_inv (ctx : ACtx) (st : AState) (t : Token) (i : Nat)
    (nm : String) (h : stInv st) : stInv (procParams ctx st t i nm).2 :=
  stInv_of_stacks (procParams_stacks ctx st t i nm).1
    (procParams_stacks ctx st t i nm).2 h

theorem handleProcTask_inv (ctx : ACtx) (st : AState) (t : Token) (i : Nat)
    (kw : String) (hkw : endOpenersEND.contains kw = true)
    (h : stInv st) : stInv (handleProcTask ctx st t i kw).2 := by
  unfold handleProcTask
  dsimp only
  have key : ∀ st2 : AState,
      st2.scopeStack.length = st.scopeStack.length + 1 →
      st2.blockStack = st.blockStack ++ [⟨kw, t⟩] → stInv st2 := by
    intro st2 h2l h2b
    unfold stInv at h ⊢
    rw [h2l, h2b, scFrames_concat_true _ _ hkw]
    omega
  split
  · split
    · split
      · split
        · exact procParams_inv ctx _ t i _ (key _ (by simp) (by simp))
        · exact key _ (by simp) (by simp)
      · exact stInv_of_stacks (by simp) (by simp) h
    · exact h
  · exact h

theorem handleFor_inv (ctx : ACtx) (st : AState) (t : Token) (i : Nat)
    (h : stInv st) : stInv (handleFor ctx st t i).2 := by
  unfold handleFor
  dsimp only
  repeat' split
  all_goals try exact h
  unfold stInv at h ⊢
  rw [setScopeTop_scopeLen, setScopeTop_blockStack, pushScope_scopeLen,
      pushScope_blockStack, pushFrame_scopeStack, pushFrame_blockStack,
      scFrames_concat_true _ _ (show endOpenersEND.contains "REPEAT" = true by decide)]
  dsimp only
  omega

theorem handleRepeat_inv (ctx : ACtx) (st : AState) (t : Token) (i : Nat)
    (kw : String) (hkw : endOpenersEND.contains kw = true)
    (h : stInv st) : stInv (handleRepeat ctx st t i kw).2 := by
  unfold handleRepeat
  dsimp only
  split
  · unfold stInv at h ⊢
    dsimp only
    rw [pushScope_scopeLen, pushScope_blockStack, pushFrame_scopeStack,
        pushFrame_blockStack, scFrames_concat_true _ _ hkw]
    omega
  · exact h

theorem handleBegin_inv (ctx : ACtx) (st : AState) (t : Token) (i : Nat)
    (kw : String) (hkw : endOpenersEND.contains kw = true)
    (h : stInv st) : stInv (handleBegin ctx st t i kw).2 := by
  unfold handleBegin
  dsimp only
  unfold stInv at h ⊢
  rw [pushScope_scopeLen, pushScope_blockStack, pushFrame_scopeStack,
      pushFrame_blockStack, scFrames_concat_true _ _ hkw]
  omega


theorem aStep_inv (ctx : ACtx) (st : AState) (t : Token) (i : Nat)
    (h : stInv st) : stInv (aStep ctx st t i).2 := by
  unfold aStep
  by_cases h1 : t.type = TokType.comment ∨ t.type = TokType.inactive ∨
      t.type = TokType.str ∨ t.type = TokType.bitstring ∨
      t.type = TokType.number ∨ t.type = TokType.error ∨ t.type = TokType.preproc
  · rw [if_pos h1]; exact h
  rw [if_neg h1]
  by_cases h2 : t.type = TokType.identifier
  · rw [if_pos h2]
    exact stInv_of_stacks (handleIdentifier_stacks ctx st t i).1
      (handleIdentifier_stacks ctx st t i).2 h
  rw [if_neg h2]
  by_cases h3 : t.type ≠ TokType.keyword
  · rw [if_pos h3]; exact h
  rw [if_neg h3]
  dsimp only
  by_cases h4 : t.value = "END"
  · rw [if_pos h4]; exact handleEnd_inv ctx st t i h
  rw [if_neg h4]
  by_cases h5 : t.value = "ELSE"
  · rw [if_pos h5]; exact handleElse_inv ctx st t i h
  rw [if_neg h5]
  by_cases h6 : t.value = "FIN"
  · rw [if_pos h6]; exact handleFin_inv ctx st t i h
  rw [if_neg h6]
  by_cases h7 : t.value = "MODEND"
  · rw [if_pos h7]; exact handleModend_inv ctx st t i h
  rw [if_neg h7]
  by_cases h8 : t.value = "DCL" ∨ t.value = "DECLARE"
  · rw [if_pos h8]
    exact stInv_of_stacks (handleDcl_stacks ctx st t i).1
      (handleDcl_stacks ctx st t i).2 h
  rw [if_neg h8]
  by_cases h9 : t.value = "SPC" ∨ t.value = "SPECIFY"
  · rw [if_pos h9]
    exact stInv_of_stacks (handleSpc_stacks ctx st t i).1
      (handleSpc_stacks ctx st t i).2 h
  rw [if_neg h9]
  by_cases h10 : t.value = "MODULE" ∨ t.value = "SHELLMODULE"
  · rw [if_pos h10]
    rcases h10 with hkw | hkw <;>
      exact handleModule_inv ctx st t i _ (by rw [hkw]; decide) h
  rw [if_neg h10]
  by_cases h11 : t.value = "IF" ∨ t.value = "CASE"
  · rw [if_pos h11]
    rcases h11 with hkw | hkw <;>
      exact handleIfCase_inv ctx st t i _ (by rw [hkw]; decide) h
  rw [if_neg h11]
  by_cases h12 : t.value = "SYSTEM" ∨ t.value = "PROBLEM"
  · rw [if_pos h12]
    exact stInv_of_stacks (handleSystem_stacks ctx st t i _).1
      (handleSystem_stacks ctx st t i _).2 h
  rw [if_neg h12]
  by_cases h13 : t.value = "PROC" ∨ t.value = "PROCEDURE" ∨ t.value = "TASK"
  · rw [if_pos h13]
    rcases h13 with hkw | hkw | hkw <;>
      exact handleProcTask_inv ctx st t i _ (by rw [hkw]; decide) h
  rw [if_neg h13]
  by_cases h14 : t.value = "FOR"
  · rw [if_pos h14]; exact handleFor_inv ctx st t i h
  rw [if_neg h14]
  by_cases h15 : t.value = "REPEAT"
  · rw [if_pos h15]
    exact handleRepeat_inv ctx st t i _ (by rw [h15]; decide) h
  rw [if_neg h15]
  by_cases h16 : t.value = "BEGIN"
  · rw [if_pos h16]
    exact handleBegin_inv ctx st t i _ (by rw [h16]; decide) h
  rw [if_neg h16]
  by_cases h17 : t.value = "CALL"
  · rw [if_pos h17]
    exact stInv_of_stacks (handleCall_stacks ctx st t i _).1
      (handleCall_stacks ctx st t i _).2 h
  rw [if_neg h17]
  by_cases h18 : t.value = "GOTO"
  · rw [if_pos h18]
    exact stInv_of_stacks (handleGoto_stacks ctx st t i _).1
      (handleGoto_stacks ctx st t i _).2 h
  rw [if_neg h18]
  cases htc : taskCtrlOf t.value with
  | some p =>
    obtain ⟨tm, pm⟩ := p
    exact stInv_of_stacks (handleTaskCtrl_stacks ctx st t i _ tm pm).1
      (handleTaskCtrl_stacks ctx st t i _ tm pm).2 h
  | none =>
    by_cases h19 : t.value = "SEMASET"
    · rw [if_pos h19]
      exact stInv_of_stacks (handleSemaset_stacks ctx st t i).1
        (handleSemaset_stacks ctx st t i).2 h
    rw [if_neg h19]
    by_cases h20 : SEMA_OP_KEYWORDS.contains t.value = true
    · rw [if_pos h20]
      exact stInv_of_stacks (handleSemaOp_stacks ctx st t i _).1
        (handleSemaOp_stacks ctx st t i _).2 h
    rw [if_neg h20]
    by_cases h21 : BOLT_OP_KEYWORDS.contains t.value = true
    · rw [if_pos h21]
      exact stInv_of_stacks (handleBoltOp_stacks ctx st t i _).1
        (handleBoltOp_stacks ctx st t i _).2 h
    rw [if_neg h21]
    exact h

theorem aGo_inv (ctx : ACtx) :
    ∀ (fuel i : Nat) (st : AState), stInv st → stInv (aGo ctx fuel i st) := by
  intro fuel
  induction fuel with
  | zero => intro i st h; exact h
  | succ n ih =>
    intro i st h
    unfold aGo
    dsimp only
    split
    · exact h
    split
    · exact h
    split
    · exact h
    exact ih _ _ (aStep_inv ctx st _ i h)

-- ---------------------------------------------------------------
-- Run-level invariant helpers
-- ---------------------------------------------------------------

theorem foldl_openBlockWarn_stacks (l : List Frame) (s : AState) :
    ((l.foldl openBlockWarn s).scopeStack.length = s.scopeStack.length) ∧
    ((l.foldl openBlockWarn s).blockStack = s.blockStack) := by
  refine foldl_stackLen _ ?_ l s
  intro s' a
  exact ⟨rfl, rfl⟩

theorem aSt0_stInv (fs : FileSys) (settings : Settings) (docUri text : String) :
    stInv (aSt0 fs settings docUri text) := by
  unfold stInv aSt0
  dsimp only
  simp [scFrames]

theorem analyzeState_stInv (fs : FileSys) (settings : Settings)
    (docUri text : String) (so : Option Nat) :
    stInv (analyzeState fs settings docUri text so) := by
  have h := aGo_inv (aCtx0 fs settings docUri text so)
      ((aSt0 fs settings docUri text).tokens.length + 1) 0
      (aSt0 fs settings docUri text) (aSt0_stInv fs settings docUri text)
  unfold analyzeState
  dsimp only
  split
  · exact h
  split
  · exact stInv_of_stacks
      ((foldl_openBlockWarn_stacks _ _).1.trans (markUnused_stacks _ _).1)
      ((foldl_openBlockWarn_stacks _ _).2.trans (markUnused_stacks _ _).2) h
  · exact stInv_of_stacks (foldl_openBlockWarn_stacks _ _).1
      (foldl_openBlockWarn_stacks _ _).2 h

-- ---------------------------------------------------------------
-- The claims
-- ---------------------------------------------------------------

/-- C1 (amended): whenever the analyzer reaches a closing keyword
    token (END, ELSE, FIN or MODEND) whose block-stack top's keyword is
    not in that closer's permitted-opener set (or the stack is empty),
    the step leaves both the block stack and the scope stack unchanged
    and moves to the next token, and it emits exactly one error
    diagnostic — the closer's structural message at that token — when
    the token lies in the analyzed document, but NO diagnostic at all
    when the token came from an included file: addDiagnostic drops
    diagnostics for other files.  Repeating the malformed closer
    repeats the same behavior. -/
theorem spec_C1 (ctx : ACtx) (st : AState) (t : Token) (i : Nat)
    (hty : t.type = TokType.keyword)
    (hkw : t.value = "END" ∨ t.value = "ELSE" ∨ t.value = "FIN" ∨ t.value = "MODEND")
    (hbad : (match st.blockStack.getLast? with
             | none => true
             | some fr => ! (closerOpeners t.value).contains fr.keyword) = true) :
    (aStep ctx st t i).2.diags =
      st.diags ++
        (if t.uri = ctx.docUri then
          [⟨.error, closerMsg t.value, t.uri, t.line, t.column, t.length, false⟩]
         else []) ∧
    (aStep ctx st t i).2.blockStack = st.blockStack ∧
    (aStep ctx st t i).2.scopeStack = st.scopeStack ∧
    (aStep ctx st t i).1 = i + 1 := by
  rcases hkw with h4 | h4 | h4 | h4
  · unfold aStep
    rw [hty, h4]
    rw [if_neg (by decide), if_neg (by decide), if_neg (by decide)]
    dsimp only
    rw [if_pos rfl]
    unfold handleEnd
    dsimp only
    rw [h4] at hbad
    have hbad' : (match st.blockStack.getLast? with
        | none => true
        | some fr => ! endOpenersEND.contains fr.keyword) = true := hbad
    rw [if_pos hbad']
    refine ⟨?_, ?_, ?_, ?_⟩ <;> by_cases huri : t.uri = ctx.docUri <;>
      simp [addErrTok, addDiagA, huri, closerMsg]
  · unfold aStep
    rw [hty, h4]
    rw [if_neg (by decide), if_neg (by decide), if_neg (by decide)]
    dsimp only
    rw [if_neg (by decide), if_pos rfl]
    unfold handleElse
    dsimp only
    rw [h4] at hbad
    have hbad' : (match st.blockStack.getLast? with
        | none => true
        | some fr => ! endOpenersELSE.contains fr.keyword) = true := hbad
    rw [if_pos hbad']
    refine ⟨?_, ?_, ?_, ?_⟩ <;> by_cases huri : t.uri = ctx.docUri <;>
      simp [addErrTok, addDiagA, huri, closerMsg]
  · unfold aStep
    rw [hty, h4]
    rw [if_neg (by decide), if_neg (by decide), if_neg (by decide)]
    dsimp only
    rw [if_neg (by decide), if_neg (by decide), if_pos rfl]
    unfold handleFin
    dsimp only
    rw [h4] at hbad
    have hbad' : (match st.blockStack.getLast? with
        | none => true
        | some fr => ! endOpenersFIN.contains fr.keyword) = true := hbad
    rw [if_pos hbad']
    refine ⟨?_, ?_, ?_, ?_⟩ <;> by_cases huri : t.uri = ctx.docUri <;>
      simp [addErrTok, addDiagA, huri, closerMsg]
  · unfold aStep
    rw [hty, h4]
    rw [if_neg (by decide), if_neg (by decide), if_neg (by decide)]
    dsimp only
    rw [if_neg (by decide), if_neg (by decide), if_neg (by decide), if_pos rfl]
    unfold handleModend
    dsimp only
    rw [h4] at hbad
    have hbad' : (match st.blockStack.getLast? with
        | none => true
        | some fr => ! endOpenersMODEND.contains fr.keyword) = true := hbad
    have hok : (st.blockStack.length == 1 &&
        (match st.blockStack.getLast? with
         | some fr => endOpenersMODEND.contains fr.keyword
         | none => false)) = false := by
      cases hl : st.blockStack.getLast? with
      | none => simp
      | some fr =>
        rw [hl] at hbad'
        rw [Bool.not_eq_true'] at hbad'
        dsimp only
        rw [hbad', Bool.and_false]
    rw [if_pos (by rw [hok]; rfl)]
    refine ⟨?_, ?_, ?_, ?_⟩ <;> by_cases huri : t.uri = ctx.docUri <;>
      simp [addErrTok, addDiagA, huri, closerMsg]

/-- C1 witness: an END token of the analyzed document meeting an empty
    block stack gets the structural error. -/
theorem spec_C1_witness :
    ((match stW1.blockStack.getLast? with
      | none => true
      | some fr => ! (closerOpeners tokC1.value).contains fr.keyword) = true) ∧
    (aStep ctxW stW1 tokC1 0).2.blockStack = stW1.blockStack ∧
    (aStep ctxW stW1 tokC1 0).2.diags =
      stW1.diags ++
        (if tokC1.uri = ctxW.docUri then
          [⟨.error, closerMsg tokC1.value, tokC1.uri, tokC1.line,
            tokC1.column, tokC1.length, false⟩]
         else []) := by
  refine ⟨by decide, ?_, ?_⟩
  · exact (spec_C1 ctxW stW1 tokC1 0 (by decide) (by decide) (by decide)).2.1
  · exact (spec_C1 ctxW stW1 tokC1 0 (by decide) (by decide) (by decide)).1

/-- C1 counterexample: a malformed END carried in from an included
    file (its uri is the included file's) meets an empty block stack
    and emits NO diagnostic at all — the claimed `exactly one
    structural error` fails for such closer tokens. -/
theorem spec_C1_counterexample :
    (tokF.uri ≠ demoUri) ∧
    ((match stW1.blockStack.getLast? with
      | none => true
      | some fr => ! (closerOpeners tokF.value).contains fr.keyword) = true) ∧
    (aStep ctxW stW1 tokF 0).2.diags = [] ∧ stW1.diags = [] := by
  decide

/-- C2 (amended): the two stacks are NOT always the same length; the
    relation the analyzer maintains instead is that the scope stack is
    one longer than the number of scope-bearing frames (TASK, PROC,
    PROCEDURE, REPEAT, BEGIN) on the block stack — MODULE, SHELLMODULE,
    IF, CASE and ELSE frames carry no scope. -/
theorem spec_C2 (fs : FileSys) (settings : Settings) (docUri text : String)
    (so : Option Nat) :
    (analyzeState fs settings docUri text so).scopeStack.length =
      1 + scFrames (analyzeState fs settings docUri text so).blockStack :=
  analyzeState_stInv fs settings docUri text so

set_option maxRecDepth 100000 in
/-- C2 counterexample: after two IF openers the block stack holds two
    frames while the scope stack still holds only the global scope, so
    the claimed equal-length invariant fails at this point of the
    pass. -/
theorem spec_C2_counterexample :
    ¬ ((analyzeState [] demoSettings demoUri txtC2 none).scopeStack.length =
       (analyzeState [] demoSettings demoUri txtC2 none).blockStack.length) := by
  decide

/-- C3: every token produced by expanding a macro reference carries the
    reference token's line, column, offset and length, wholesale,
    however many tokens the replacement text lexes into (lines
    1680-1685). -/
theorem spec_C3 (ln col off len : Nat) (ts : List Token) (t : Token)
    (h : t ∈ expandDefine ln col off len ts) :
    t.line = ln ∧ t.column = col ∧ t.offset = off ∧ t.length = len := by
  unfold expandDefine at h
  rw [List.mem_map] at h
  obtain ⟨tk, _, rfl⟩ := h
  exact ⟨rfl, rfl, rfl, rfl⟩

/-- C3 witness: a concrete replacement token takes the reference
    span. -/
theorem spec_C3_witness :
    ({ tok0 with line := 1, column := 2, offset := 3, length := 4 } ∈
      expandDefine 1 2 3 4 [tok0]) ∧
    ({ tok0 with line := 1, column := 2, offset := 3, length := 4 } : Token).line = 1 :=
  ⟨by decide,
   (spec_C3 1 2 3 4 [tok0]
     { tok0 with line := 1, column := 2, offset := 3, length := 4 } (by decide)).1⟩

set_option maxRecDepth 100000 in
/-- C4 (amended): on the scenario source the analysis reports exactly
    the procedure name P as unused (warning plus dimming hint at P's
    name token, line 1), and neither M nor X: X is marked used by the
    assignment `X:=1;`, M is created pre-used, but the non-GLOBAL P is
    still unused when MODEND sweeps the global scope. -/
theorem spec_C4 :
    (analyze [] demoSettings demoUri txtC4 none).diagnostics =
      [⟨.warning, "Bezeichner P nicht verwendet.", demoUri, 1, 5, 1, false⟩,
       ⟨.hint, "inaktiv", demoUri, 1, 5, 1, true⟩] ∧
    (analyze [] demoSettings demoUri txtC4 none).crashed = false := by
  decide

set_option maxRecDepth 100000 in
/-- C4 counterexample: P is reported unused and X is not, contradicting
    both halves of the claimed expectation. -/
theorem spec_C4_counterexample :
    ((analyze [] demoSettings demoUri txtC4 none).diagnostics.any
      (fun d => d.message == "Bezeichner P nicht verwendet.") = true) ∧
    ((analyze [] demoSettings demoUri txtC4 none).diagnostics.all
      (fun d => d.message != "Bezeichner X nicht verwendet.") = true) := by
  decide

set_option maxRecDepth 100000 in
/-- C5 (code bug): hovering over a comment token returns the generic
    token description instead of no response: the debug `if/else`
    chain at lines 2716-2747 returns in every branch, so the
    comment/literal null-return rule at lines 2750-2753 is dead
    code. -/
theorem spec_C5 :
    ((findTokenAt (analyze [] demoSettings demoUri txtC5 none).tokens
        demoUri 0 2).map (fun t => t.type) = some TokType.comment) ∧
    onHoverModel (analyze [] demoSettings demoUri txtC5 none) demoUri 0 2 =
      some (HoverResp.genericResp TokType.comment "! hallo" 0) := by
  decide

set_option maxRecDepth 100000 in
/-- C6 (amended): the scenario yields exactly one undefined-label error
    for L1, but it is positioned at the GOTO's label token L1 (line 1,
    columns 5-6), not at the END token (line 2) — the source passes the
    stored label token, not the END token, to addDiagnosticError (line
    2127); the unused-Q warning and hint follow. -/
theorem spec_C6 :
    (analyze [] demoSettings demoUri txtC6 none).diagnostics =
      [⟨.error, "GOTO: Label L1 nicht definiert.", demoUri, 1, 5, 2, false⟩,
       ⟨.warning, "Bezeichner Q nicht verwendet.", demoUri, 0, 5, 1, false⟩,
       ⟨.hint, "inaktiv", demoUri, 0, 5, 1, true⟩] := by
  decide

set_option maxRecDepth 100000 in
/-- C6 counterexample: the single undefined-label error lies at line 1
    (the L1 token's position and length), while every END token of the
    input lies on line 2 — the error is not at the END of Q. -/
theorem spec_C6_counterexample :
    (((analyze [] demoSettings demoUri txtC6 none).diagnostics.filter isErrDiag).length
        = 1) ∧
    (((analyze [] demoSettings demoUri txtC6 none).diagnostics.filter isErrDiag).all
      (fun d => d.line == 1 && d.column == 5 && d.length == 2) = true) ∧
    ((analyze [] demoSettings demoUri txtC6 none).tokens.all
      (fun t => t.value != "END" || t.line == 2) = true) := by
  decide

/-- C7 (amended): a label-prefixed PROC/TASK implementation header is
    accepted — frame pushed, scope pushed — exactly when the SCOPE
    stack has length 1, not when exactly one block frame is open: the
    check at line 2333 reads scopeStack.length. With any other scope
    depth the header is rejected with the `nur global erlaubt` error at
    the label token and declares nothing. -/
theorem spec_C7 (ctx : ACtx) (st : AState) (t : Token) (i : Nat) (kw : String)
    (pi p2i : Nat) (pt p2 : Token)
    (hprev : findPrevCodeIdx st.tokens i = some pi)
    (hp2i : findPrevCodeIdx st.tokens pi = some p2i)
    (hpt : st.tokens[pi]? = some pt)
    (hcolon : pt.type = TokType.symbol ∧ pt.value = ":")
    (hp2t : st.tokens[p2i]? = some p2)
    (hident : p2.type = TokType.identifier) :
    (st.scopeStack.length = 1 →
      (handleProcTask ctx st t i kw).2.blockStack = st.blockStack ++ [⟨kw, t⟩] ∧
      (handleProcTask ctx st t i kw).2.scopeStack.length = st.scopeStack.length + 1) ∧
    (st.scopeStack.length ≠ 1 →
      handleProcTask ctx st t i kw =
        (i + 1, addErrTok ctx.docUri { st with gotoList := [] }
          (kw ++ " '" ++ p2.value ++ "' nur global erlaubt. " ++
            toString st.scopeStack.length) p2)) := by
  unfold handleProcTask
  dsimp only
  rw [hprev]
  dsimp only [Option.bind]
  rw [hp2i, hpt]
  dsimp only
  rw [hp2t]
  dsimp only
  rw [if_pos ⟨by rw [hcolon.1, hcolon.2]; decide, hident⟩]
  constructor
  · intro hsl
    rw [if_pos hsl]
    split
    · constructor
      · rw [(procParams_stacks ctx _ t i _).2]
        simp
      · rw [(procParams_stacks ctx _ t i _).1]
        simp
    · constructor <;> simp
  · intro hne
    rw [if_neg hne]

/-- C7 witness: the header `Q: PROC` read inside a nested scope (two
    scopes open) is rejected with the error at Q. -/
theorem spec_C7_witness :
    (stBadC7.scopeStack.length ≠ 1) ∧
    handleProcTask ctxW stBadC7 tokProcKw 2 "PROC" =
      (3, addErrTok ctxW.docUri { stBadC7 with gotoList := [] }
        ("PROC '" ++ tokQ.value ++ "' nur global erlaubt. " ++
          toString stBadC7.scopeStack.length) tokQ) := by
  refine ⟨by decide, ?_⟩
  exact (spec_C7 ctxW stBadC7 tokProcKw 2 "PROC" 1 0 tokColon tokQ (by decide)
    (by decide) (by decide) (by decide) (by decide) (by decide)).2 (by decide)

set_option maxRecDepth 100000 in
/-- C7 counterexample: the header `Q: PROC;` with ZERO open frames (no
    enclosing MODULE) is accepted: no error diagnostic, Q is declared
    in the global scope, and a PROC frame is open at the end of the
    pass — refuting `exactly one open frame, else error`. -/
theorem spec_C7_counterexample :
    (((analyze [] demoSettings demoUri txtC7 none).diagnostics.filter isErrDiag) = []) ∧
    ((((analyze [] demoSettings demoUri txtC7 none).scopeStack.head?.getD
        []).lookup "Q").isSome = true) ∧
    ((analyzeState [] demoSettings demoUri txtC7 none).blockStack.map Frame.keyword
        = ["PROC"]) := by
  decide

set_option maxRecDepth 100000 in
/-- C8: the include machinery never requests a nested lex once the
    include stack holds 100 files — the cap check at line 1456 is
    independent of cycle detection and reaching it inserts nothing and
    crashes nothing — and the concrete self-including file terminates
    lexing without a crash after exactly 101 expansions of its `x`
    line (the top-level file plus 100 capped include levels). -/
theorem spec_C8 :
    (∀ (fs : FileSys) (settings : Settings) (docUri uri : String)
        (chars : List Char) (loc : LexLoc) (sh : LexSh),
        100 ≤ sh.includeStack.length →
        (dirDispatch fs settings docUri uri chars loc sh).isInc = false) ∧
    ((fun r => (r.2.crashed, (r.1.tokens.filter (fun t => t.value == "x")).length))
        (tokenizeRun fsC8 demoSettings uriC8 uriC8 txtC8 true lexGas
          (shInit demoSettings)) = (false, 101)) := by
  constructor
  · intro fs settings docUri uri chars loc sh hcap
    unfold dirDispatch
    dsimp only
    repeat' split
    all_goals first | rfl | omega
  · decide

/-- C8 witness: with a full include stack the include directive of the
    self-including file is dispatched without a nested lex request. -/
theorem spec_C8_witness :
    100 ≤ shCap.includeStack.length ∧
    (dirDispatch fsC8 demoSettings uriC8 uriC8 txtC8.data lexInit shCap).isInc
      = false :=
  ⟨by decide,
   spec_C8.1 fsC8 demoSettings uriC8 uriC8 txtC8.data lexInit shCap (by decide)⟩

/-- C9 (amended): the addDiagnostic-routed paths do drop every
    diagnostic aimed at a different file than the analyzed document —
    both the analyzer-side and the lexer-side sinks return their state
    unchanged on a foreign uri. -/
theorem spec_C9 (docUri : String) (st : AState) (sh : LexSh) (sev : Severity)
    (msg dUri : String) (line col len : Nat) (unnec : Bool)
    (h : dUri ≠ docUri) :
    addDiagA docUri st sev msg dUri line col len unnec = st ∧
    addDiagSh docUri sh sev msg dUri line col len unnec = sh := by
  unfold addDiagA addDiagSh
  rw [if_neg h, if_neg h]
  exact ⟨rfl, rfl⟩

/-- C9 witness: a foreign-file error diagnostic is dropped by the
    analyzer-side sink. -/
theorem spec_C9_witness :
    ("file:///w/inc.p" ≠ mainUri9) ∧
    addDiagA mainUri9 stW1 Severity.error "e" "file:///w/inc.p" 0 0 1 false = stW1 :=
  ⟨by decide,
   (spec_C9 mainUri9 stW1 (shInit demoSettings) Severity.error "e"
     "file:///w/inc.p" 0 0 1 false (by decide)).1⟩

set_option maxRecDepth 100000 in
/-- C9 counterexample: the end-of-analysis open-block warnings are
    pushed directly onto the diagnostics array (lines 2627-2639),
    bypassing addDiagnostic's same-file filter, so a block opened by an
    included file and never closed DOES contribute a diagnostic —
    located in the included file — to the analyzed document's published
    list. -/
theorem spec_C9_counterexample :
    ((analyze fsC9 demoSettings mainUri9 txtC9 none).diagnostics.filter
        (fun d => d.diagUri != mainUri9)) =
      [⟨.warning, "Block 'BEGIN' wird nicht geschlossen. Erwartet END.",
        "file:///w/inc.p", 0, 0, 5, false⟩] := by
  decide

/-- C10: the scope stack never becomes empty: at every point of the
    forward pass (any fuel cut of the loop from the initial state) and
    in the final analysis state, at least the permanent global scope is
    present, because both scope pops are guarded by a length > 1
    check. -/
theorem spec_C10 (fs : FileSys) (settings : Settings) (docUri text : String)
    (so : Option Nat) (fuel i : Nat) :
    1 ≤ (aGo (aCtx0 fs settings docUri text so) fuel i
          (aSt0 fs settings docUri text)).scopeStack.length ∧
    1 ≤ (analyzeState fs settings docUri text so).scopeStack.length := by
  have h1 := aGo_inv (aCtx0 fs settings docUri text so) fuel i
      (aSt0 fs settings docUri text) (aSt0_stInv fs settings docUri text)
  have h2 := analyzeState_stInv fs settings docUri text so
  unfold stInv at h1 h2
  omega

end Pearl
